import Mathlib

/-!
Verification development for the concord4 protocol engine (a Rust client
library for the Concord 4 alarm-panel RS-232 automation protocol).

The definitions below are a shallow embedding of the repository's source:
  * `src/commands.rs`    — keypress/list-request/arm-option types,
  * `src/communication.rs` — the `SendableMessage`/`RecvMessage` taxonomy and
    the two-level inbound dispatch `RecvMessage::try_from`,
  * `src/equipment.rs`   — the per-record binary parsers,
  * `src/decode.rs`      — the text-token dictionary and decoder,
  * `src/serial.rs`      — the `Concord4Codec` byte codec and the
    link-layer loop state (timeout, retry, resend bookkeeping),
  * `src/state.rs`       — the in-memory state projection.

Machine bytes are modelled as `Nat` with explicit `% 256` where the Rust
code narrows to `u8`.  Code that can panic (out-of-bounds indexing,
`expect`, slice-range underflow) is modelled in an `Option` monad where
`none` means the Rust code panics.  Rust `HashMap`/`DashMap` values are
modelled as association lists whose insert replaces the previous binding;
zone identifiers, rendered in the source as the strings `p{n}-z{m}` from
the two numeric fields, are keyed here by the pair `(n, m)` (the rendering
is injective in the pair, and the specification explicitly permits a
compound key as long as the rendered identifier is derived from it).
-/

namespace Concord4

/-- ACK control byte, `consts::ACK` in `src/consts.rs`. -/
def ACK : Nat := 0x06

/-- NAK control byte, `consts::NAK` in `src/consts.rs`. -/
def NAK : Nat := 0x15

/-- `consts::ASCII_BYTE_REAL_LEN`: a binary byte occupies two ASCII-hex chars. -/
def ASCII_BYTE_REAL_LEN : Nat := 2

/-! ### ASCII-hex helpers (`src/serial.rs` bottom of file) -/

/-- Value of a single ASCII hex-digit character code, accepting both cases
(`u8::from_str_radix(..., 16)` accepts `0-9a-fA-F`). -/
def hexDigitVal (c : Nat) : Option Nat :=
  if 48 ≤ c ∧ c ≤ 57 then some (c - 48)
  else if 65 ≤ c ∧ c ≤ 70 then some (c - 55)
  else if 97 ≤ c ∧ c ≤ 102 then some (c - 87)
  else none

/-- Character code of an uppercase hex digit, as produced by Rust's `{:X}`. -/
def hexCharCode (v : Nat) : Nat :=
  if v < 10 then 48 + v else 55 + v

/-- `ascii_hex_to_string` in `src/serial.rs`: each byte is rendered as two
uppercase ASCII-hex character codes (`write!("{b:02X}")`).  Faithful for
byte values `< 256`, which is the `u8` domain of the source. -/
def asciiHexRender : List Nat → List Nat
  | [] => []
  | b :: rest => hexCharCode (b / 16) :: hexCharCode (b % 16) :: asciiHexRender rest

/-- Whether a two-byte chunk is valid UTF-8 (the only shapes possible for a
two-byte `str::from_utf8` input): two ASCII bytes, or one two-byte sequence. -/
def validUtf8Pair (a b : Nat) : Bool :=
  (a < 128 && b < 128) || (0xC2 ≤ a && a ≤ 0xDF && 0x80 ≤ b && b ≤ 0xBF)

/-- `ascii_hex_to_u8` in `src/serial.rs`.  The source calls
`str::from_utf8(..).expect(..)` and then `u8::from_str_radix(..).expect(..)`:
`none` here means one of those `expect`s panics. -/
def asciiHexToU8 (hex : List Nat) : Option Nat :=
  match hex with
  | [a, b] =>
    if validUtf8Pair a b then
      match hexDigitVal a, hexDigitVal b with
      | some x, some y => some (16 * x + y)
      | _, _ => none
    else none
  | _ => none

/-- `ascii_hex_to_bin` in `src/serial.rs`: `chunks_exact(2)`, then for each
chunk `str::from_utf8` — whose failures are silently *skipped* by
`filter_map(Result::ok)` — then `u8::from_str_radix`, collected so that the
first parse error fails the whole conversion. -/
def asciiHexToBin : List Nat → Except Unit (List Nat)
  | a :: b :: rest =>
    if a < 128 ∧ b < 128 then
      match hexDigitVal a, hexDigitVal b with
      | some x, some y =>
        match asciiHexToBin rest with
        | .ok l => .ok ((16 * x + y) :: l)
        | .error e => .error e
      | _, _ => .error ()
    else if 0xC2 ≤ a ∧ a ≤ 0xDF ∧ 0x80 ≤ b ∧ b ≤ 0xBF then .error ()
    else asciiHexToBin rest
  | _ => .ok []

/-- `compute_checksum` in `src/serial.rs`: unsigned sum of the bytes mod 256. -/
def computeChecksum (msg : List Nat) : Nat := msg.sum % 256

/-- `validate_checksum` in `src/serial.rs`: the declared checksum equals the
checksum of the length byte followed by the message body. -/
def validateChecksum (firstByte : Nat) (msg : List Nat) (checksum : Nat) : Bool :=
  checksum == computeChecksum (firstByte :: msg)

/-! ### Outgoing commands (`src/commands.rs`, `src/communication.rs`) -/

/-- `Keypress` in `src/commands.rs`. -/
inductive Keypress where
  | zero | one | two | three | four | five | six | seven | eight | nine
  | star | pound | policePanic | auxPanic | firePanic
  | lightsOn | lightsOff | lightsToggle
  | keyswitchOn | keyswitchOff | keyswitchToggle
  | fireTPAcknowledge | fireTPSilence | fireTPFireTest | fireTPSmokeReset
  | keyfobDisarm | keyfobArm | keyfobLights | keyfobStar | keyfobArmDisarm
  | keyfobLightsStar | keyfobLongLights | keyfobDirectArmLevelThree
  | keyfobDirectArmLevelTwo | keyfobArmStar | keyfobDisarmLights
  | tpAKey | tpBKey | tpCKey | tpDKey | tpEKey | tpFKey
  deriving DecidableEq, Repr

/-- `impl From<Keypress> for u8` in `src/commands.rs`. -/
def keypressByte : Keypress → Nat
  | .zero => 0x00 | .one => 0x01 | .two => 0x02 | .three => 0x03 | .four => 0x04
  | .five => 0x05 | .six => 0x06 | .seven => 0x07 | .eight => 0x08 | .nine => 0x09
  | .star => 0x0a | .pound => 0x0b | .policePanic => 0x0c | .auxPanic => 0x0d
  | .firePanic => 0x0e
  | .lightsOn => 0x10 | .lightsOff => 0x11 | .lightsToggle => 0x12
  | .keyswitchOn => 0x13 | .keyswitchOff => 0x14 | .keyswitchToggle => 0x15
  | .fireTPAcknowledge => 0x1c | .fireTPSilence => 0x1d | .fireTPFireTest => 0x1e
  | .fireTPSmokeReset => 0x1f
  | .keyfobDisarm => 0x20 | .keyfobArm => 0x21 | .keyfobLights => 0x22
  | .keyfobStar => 0x23 | .keyfobArmDisarm => 0x24 | .keyfobLightsStar => 0x25
  | .keyfobLongLights => 0x26 | .keyfobDirectArmLevelThree => 0x27
  | .keyfobDirectArmLevelTwo => 0x28 | .keyfobArmStar => 0x29
  | .keyfobDisarmLights => 0x2a
  | .tpAKey => 0x2c | .tpBKey => 0x30 | .tpCKey => 0x2d | .tpDKey => 0x33
  | .tpEKey => 0x2e | .tpFKey => 0x36

/-- `ListRequest` in `src/commands.rs` (a fieldless enum with *no explicit
discriminants*). -/
inductive ListRequest where
  | allData | zoneData | partData | busDevData | busCapData | outputData
  | userData | scheduleData | eventData | lightAttach
  deriving DecidableEq, Repr

/-- The value of the Rust cast `req as u8` on `ListRequest`: since the enum
declares no discriminants, the cast yields the declaration index. -/
def listRequestAsU8 : ListRequest → Nat
  | .allData => 0 | .zoneData => 1 | .partData => 2 | .busDevData => 3
  | .busCapData => 4 | .outputData => 5 | .userData => 6 | .scheduleData => 7
  | .eventData => 8 | .lightAttach => 9

/-- `impl From<u8> for ListRequest` in `src/commands.rs`: the documented
protocol codes of the list-request kinds. -/
def listRequestFromByte (value : Nat) : ListRequest :=
  match value with
  | 0x00 => .allData
  | 0x03 => .zoneData
  | 0x04 => .partData
  | 0x05 => .busDevData
  | 0x06 => .busCapData
  | 0x07 => .outputData
  | 0x09 => .userData
  | 0x0a => .scheduleData
  | 0x0b => .eventData
  | 0x0c => .lightAttach
  | _ => .allData

/-- `ArmMode` in `src/commands.rs`. -/
inductive ArmMode where
  | stay | away
  deriving DecidableEq, Repr

/-- `ArmLevel` in `src/commands.rs`. -/
inductive ArmLevel where
  | normal | silent | instant
  deriving DecidableEq, Repr

/-- `ArmOptions` in `src/commands.rs` (`code: [Keypress; 4]` is modelled as a
4-tuple). -/
structure ArmOptions where
  mode : ArmMode
  code : Keypress × Keypress × Keypress × Keypress
  level : Option ArmLevel
  partition : Option Nat
  deriving DecidableEq, Repr

/-- `DisarmOptions` in `src/commands.rs`. -/
structure DisarmOptions where
  code : Keypress × Keypress × Keypress × Keypress
  partition : Option Nat
  deriving DecidableEq, Repr

/-- `SendableMessage` in `src/communication.rs`. -/
inductive SendableMessage where
  | ack
  | nak
  | list (req : ListRequest)
  | keypress (partition : Nat) (keys : List Keypress)
  | arm (options : ArmOptions)
  | disarm (options : DisarmOptions)
  | toggleChime (partition : Option Nat)
  | dynamicDataRefresh
  deriving DecidableEq, Repr

/-- The four code keypresses as a list, as `extend_from_slice(&options.code)`
iterates the `[Keypress; 4]` array. -/
def codeKeys (c : Keypress × Keypress × Keypress × Keypress) : List Keypress :=
  [c.1, c.2.1, c.2.2.1, c.2.2.2]

/-- `handle_keypress` in `src/serial.rs`: `[0x40, partition, 0x00]` followed by
the key byte for each keypress. -/
def handleKeypress (partition : Nat) (keys : List Keypress) : List Nat :=
  0x40 :: partition :: 0x00 :: keys.map keypressByte

/-- The key sequence the `Arm` branch of `Concord4Codec::encode` builds before
delegating to `handle_keypress`. -/
def armKeys (options : ArmOptions) : List Keypress :=
  let keys : List Keypress :=
    match options.mode with
    | .stay =>
      match options.level with
      | some .silent => [.five, .two]
      | _ => [.two]
    | .away =>
      match options.level with
      | some .silent => [.five, .three]
      | _ => [.three]
  let keys := keys ++ codeKeys options.code
  match options.level with
  | some .instant => keys ++ [.four]
  | _ => keys

/-- The message body (the bytes pushed after the placeholder length byte) built
by the `match item` in `Concord4Codec::encode` (`src/serial.rs`).  `Ack` and
`Nak` never reach this code path. -/
def encodeBody : SendableMessage → List Nat
  | .ack => []
  | .nak => []
  | .list .allData => [0x02]
  | .list other => [0x02, listRequestAsU8 other]
  | .arm options => handleKeypress (options.partition.getD 1) (armKeys options)
  | .disarm options => handleKeypress (options.partition.getD 1) (.one :: codeKeys options.code)
  | .toggleChime partition => handleKeypress (partition.getD 1) [.seven, .one]
  | .keypress partition keys => handleKeypress partition keys
  | .dynamicDataRefresh => [0x20]

/-- Whether the command is a single-byte control message (the early-return
branches of `Concord4Codec::encode`). -/
def isCtrlMessage : SendableMessage → Bool
  | .ack => true
  | .nak => true
  | _ => false

/-- The binary frame bytes of a data command before ASCII-hex rendering:
`data[0] = data.len() as u8` (hence the `% 256`) followed by the body, then
the checksum pushed over all of `data`. -/
def frameBytes (item : SendableMessage) : List Nat :=
  let body := encodeBody item
  let lenByte := (1 + body.length) % 256
  (lenByte :: body) ++ [computeChecksum (lenByte :: body)]

/-- `Concord4Codec::encode` (`src/serial.rs`): `Ack`/`Nak` are the raw control
bytes; every other command becomes a line feed followed by the uppercase
ASCII-hex rendering of the frame bytes. -/
def encodeFrame (item : SendableMessage) : List Nat :=
  match item with
  | .ack => [ACK]
  | .nak => [NAK]
  | _ => 0x0A :: asciiHexRender (frameBytes item)

/-! ### Text-token decoding (`src/decode.rs`) -/

set_option maxHeartbeats 1600000 in
/-- The 256-entry text-token dictionary (`TextToken::as_str`). -/
def tokenStr (t : Nat) : String :=
  match t with
  | 0x0 => "0" | 0x1 => "1" | 0x2 => "2" | 0x3 => "3" | 0x4 => "4"
  | 0x5 => "5" | 0x6 => "6" | 0x7 => "7" | 0x8 => "8" | 0x9 => "9"
  | 0xC => "#" | 0xD => ":" | 0xE => "/" | 0xF => "?" | 0x10 => "."
  | 0x11 => "A" | 0x12 => "B" | 0x13 => "C" | 0x14 => "D" | 0x15 => "E"
  | 0x16 => "F" | 0x17 => "G" | 0x18 => "H" | 0x19 => "I" | 0x1A => "J"
  | 0x1B => "K" | 0x1C => "L" | 0x1D => "M" | 0x1E => "N" | 0x1F => "O"
  | 0x20 => "P" | 0x21 => "Q" | 0x22 => "R" | 0x23 => "S" | 0x24 => "T"
  | 0x25 => "U" | 0x26 => "V" | 0x27 => "W" | 0x28 => "X" | 0x29 => "Y"
  | 0x2A => "Z" | 0x2B => " " | 0x2C => String.mk [Char.ofNat 39]
  | 0x2D => "-" | 0x2E => "_" | 0x2F => "*"
  | 0x30 => "AC POWER" | 0x31 => "ACCESS" | 0x32 => "ACCOUNT" | 0x33 => "ALARM"
  | 0x34 => "ALL" | 0x35 => "ARM" | 0x36 => "ARMING" | 0x37 => "AREA"
  | 0x38 => "ATTIC" | 0x39 => "AUTO" | 0x3A => "AUXILIARY" | 0x3B => "AWAY"
  | 0x3C => "BACK" | 0x3D => "BATTERY" | 0x3E => "BEDROOM" | 0x3F => "BEEPS"
  | 0x40 => "BOTTOM" | 0x41 => "BREEZEWAY" | 0x42 => "BASEMENT"
  | 0x43 => "BATHROOM" | 0x44 => "BUS" | 0x45 => "BYPASS" | 0x46 => "BYPASSED"
  | 0x47 => "CABINET" | 0x48 => "CANCELED" | 0x49 => "CARPET" | 0x4A => "CHIME"
  | 0x4B => "CLOSET" | 0x4C => "CLOSING" | 0x4D => "CODE" | 0x4E => "CONTROL"
  | 0x4F => "CPU" | 0x50 => "DEGREES" | 0x51 => "DEN" | 0x52 => "DESK"
  | 0x53 => "DELAY" | 0x54 => "DELETE" | 0x55 => "DINING" | 0x56 => "DIRECT"
  | 0x57 => "DOOR" | 0x58 => "DOWN" | 0x59 => "DOWNLOAD" | 0x5A => "DOWNSTAIRS"
  | 0x5B => "DRAWER" | 0x5C => "DISPLAY" | 0x5D => "DURESS" | 0x5E => "EAST"
  | 0x5F => "ENERGY SAVER" | 0x60 => "ENTER" | 0x61 => "ENTRY" | 0x62 => "ERROR"
  | 0x63 => "EXIT" | 0x64 => "FAIL" | 0x65 => "FAILURE" | 0x66 => "FAMILY"
  | 0x67 => "FEATURES" | 0x68 => "FIRE" | 0x69 => "FIRST" | 0x6A => "FLOOR"
  | 0x6B => "FORCE" | 0x6C => "FORMAT" | 0x6D => "FREEZE" | 0x6E => "FRONT"
  | 0x6F => "FURNACE" | 0x70 => "GARAGE" | 0x71 => "GALLERY" | 0x72 => "GOODBYE"
  | 0x73 => "GROUP" | 0x74 => "HALL" | 0x75 => "HEAT" | 0x76 => "HELLO"
  | 0x77 => "HELP" | 0x78 => "HIGH" | 0x79 => "HOURLY" | 0x7A => "HOUSE"
  | 0x7B => "IMMEDIATE" | 0x7C => "IN SERVICE" | 0x7D => "INTERIOR"
  | 0x7E => "INTRUSION" | 0x7F => "INVALID" | 0x80 => "IS" | 0x81 => "KEY"
  | 0x82 => "KITCHEN" | 0x83 => "LAUNDRY" | 0x84 => "LEARN" | 0x85 => "LEFT"
  | 0x86 => "LIBRARY" | 0x87 => "LEVEL" | 0x88 => "LIGHT" | 0x89 => "LIGHTS"
  | 0x8A => "LIVING" | 0x8B => "LOW" | 0x8C => "MAIN" | 0x8D => "MASTER"
  | 0x8E => "MEDICAL" | 0x8F => "MEMORY" | 0x90 => "MIN" | 0x91 => "MODE"
  | 0x92 => "MOTION" | 0x93 => "NIGHT" | 0x94 => "NORTH" | 0x95 => "NOT"
  | 0x96 => "NUMBER" | 0x97 => "OFF" | 0x98 => "OFFICE" | 0x99 => "OK"
  | 0x9A => "ON" | 0x9B => "OPEN" | 0x9C => "OPENING" | 0x9D => "PANIC"
  | 0x9E => "PARTITION" | 0x9F => "PATIO" | 0xA0 => "PHONE" | 0xA1 => "POLICE"
  | 0xA2 => "POOL" | 0xA3 => "PORCH" | 0xA4 => "PRESS" | 0xA5 => "QUIET"
  | 0xA6 => "QUICK" | 0xA7 => "RECEIVER" | 0xA8 => "REAR" | 0xA9 => "REPORT"
  | 0xAA => "REMOTE" | 0xAB => "RESTORE" | 0xAC => "RIGHT" | 0xAD => "ROOM"
  | 0xAE => "SCHEDULE" | 0xAF => "SCRIPT" | 0xB0 => "SEC" | 0xB1 => "SECOND"
  | 0xB2 => "SET" | 0xB3 => "SENSOR" | 0xB4 => "SHOCK" | 0xB5 => "SIDE"
  | 0xB6 => "SIREN" | 0xB7 => "SLIDING" | 0xB8 => "SMOKE" | 0xB9 => "Sn"
  | 0xBA => "SOUND" | 0xBB => "SOUTH" | 0xBC => "SPECIAL" | 0xBD => "STAIRS"
  | 0xBE => "START" | 0xBF => "STATUS" | 0xC0 => "STAY" | 0xC1 => "STOP"
  | 0xC2 => "SUPERVISORY" | 0xC3 => "SYSTEM" | 0xC4 => "TAMPER"
  | 0xC5 => "TEMPERATURE" | 0xC6 => "TEMPORARY" | 0xC7 => "TEST"
  | 0xC8 => "TIME" | 0xC9 => "TIMEOUT" | 0xCA => "TOUCHPAD" | 0xCB => "TRIP"
  | 0xCC => "TROUBLE" | 0xCD => "UNBYPASS" | 0xCE => "UNIT" | 0xCF => "UP"
  | 0xD0 => "VERIFY" | 0xD1 => "VIOLATION" | 0xD2 => "WARNING" | 0xD3 => "WEST"
  | 0xD4 => "WINDOW" | 0xD5 => "MENU" | 0xD6 => "RETURN" | 0xD7 => "POUND"
  | 0xD8 => "HOME"
  | 0xf9 => "\n" | 0xfa => "<spc>" | 0xfb => "\n"
  | 0xfd => "<bs>" | 0xfe => "<blink>"
  | _ => "@"

/-- Recursion for `decode_text_tokens`: `n` is the total token count, `i` the
current index, `s` the accumulated output.  Token `0xFD` removes the last byte
of `s` — Rust's `s[..s.len() - 1]` — which *panics* (modelled `none`) when `s`
is empty because `s.len() - 1` underflows.  Every dictionary entry is ASCII, so
byte length and character length coincide. -/
def decodeTextTokensGo (n : Nat) : Nat → List Nat → String → Option String
  | _, [], s => some s
  | i, t :: rest, s =>
    if t == 0xFD then
      if s.length == 0 then none
      else decodeTextTokensGo n (i + 1) rest (s.dropRight 1)
    else
      let c := tokenStr t
      let s := s ++ c
      let s := if c.length > 1 && i < n - 1 && !(c.startsWith "<") then s ++ " " else s
      decodeTextTokensGo n (i + 1) rest s

/-- `decode_text_tokens` in `src/decode.rs`. -/
def decodeTextTokens (tokens : List Nat) : Option String :=
  decodeTextTokensGo tokens.length 0 tokens ""

/-- `letter_from_representative_hex` in `src/decode.rs`. -/
def letterFromRepresentativeHex (hex : Nat) : Char :=
  match hex with
  | 0x01 => 'A' | 0x02 => 'B' | 0x03 => 'C' | 0x04 => 'D' | 0x05 => 'E'
  | 0x06 => 'F' | 0x07 => 'G' | 0x08 => 'H' | 0x09 => 'I' | 0x10 => 'J'
  | 0x11 => 'K' | 0x12 => 'L' | 0x13 => 'M' | 0x14 => 'N' | 0x15 => 'O'
  | 0x16 => 'P' | 0x17 => 'Q' | 0x18 => 'R' | 0x19 => 'S' | 0x20 => 'T'
  | 0x21 => 'U' | 0x22 => 'V' | 0x23 => 'W' | 0x24 => 'X' | 0x25 => 'Y'
  | 0x26 => 'Z' | _ => ' '

/-- Uppercase hex digits of a number, most significant first (Rust `{:X}`,
no padding). -/
def natToHexChars (n : Nat) : List Char :=
  if _h : n < 16 then [Char.ofNat (hexCharCode n)]
  else natToHexChars (n / 16) ++ [Char.ofNat (hexCharCode (n % 16))]
  decreasing_by exact Nat.div_lt_self (by omega) (by omega)

/-- Rust's `format!("{:X}", n)`. -/
def natToHexUp (n : Nat) : String := String.mk (natToHexChars n)

/-! ### Inbound record sub-structures (`src/equipment.rs`, `src/touchpad.rs`)

Each `impl From<Vec<u8>>` indexes its input at fixed offsets; a `none` result
models the out-of-bounds panic the Rust indexing performs on shorter input. -/

/-- `ZoneStatus` in `src/equipment.rs`. -/
inductive ZoneStatus where
  | normal | tripped | faulted | alarm | trouble | bypassed | unknown
  deriving DecidableEq, Repr

/-- `impl From<u8> for ZoneStatus`. -/
def zoneStatusFrom (data : Nat) : ZoneStatus :=
  match data with
  | 0x0 => .normal | 0x1 => .tripped | 0x2 => .faulted | 0x4 => .alarm
  | 0x8 => .trouble | 0xA => .bypassed | _ => .unknown

/-- `ZoneType` in `src/equipment.rs`. -/
inductive ZoneType where
  | hardwired | rf | touchpad
  deriving DecidableEq, Repr

/-- `impl From<u8> for ZoneType`. -/
def zoneTypeFrom (data : Nat) : ZoneType :=
  match data with
  | 0x0 => .hardwired | 0x1 => .rf | 0x2 => .touchpad | _ => .hardwired

/-- `ZoneData` in `src/equipment.rs`. -/
structure ZoneData where
  partitionNumber : Nat
  areaNumber : Nat
  groupNumber : Nat
  zoneNumber : Nat
  zoneType : ZoneType
  zoneStatus : ZoneStatus
  zoneText : String
  deriving DecidableEq, Repr

/-- The compound key behind `ZoneData::id()`s rendering `p{partition}-z{zone}`. -/
def ZoneData.zoneKey (z : ZoneData) : Nat × Nat := (z.partitionNumber, z.zoneNumber)

/-- The rendered `StringIdentifiable::id()` of a zone. -/
def zoneIdStr (partition zone : Nat) : String :=
  "p" ++ toString partition ++ "-z" ++ toString zone

/-- The compound key behind `ZoneData::group_id()`s rendering
`p{partition}-g{group}`. -/
def ZoneData.groupKey (z : ZoneData) : Nat × Nat := (z.partitionNumber, z.groupNumber)

/-- `impl From<Vec<u8>> for ZoneData`: offsets 0,1,2,4,5,6 then the text
tokens from offset 7 (the slice `&data[7..]` itself needs length ≥ 7). -/
def zoneDataFrom (data : List Nat) : Option ZoneData := do
  let p ← data.get? 0
  let a ← data.get? 1
  let g ← data.get? 2
  let z ← data.get? 4
  let t ← data.get? 5
  let s ← data.get? 6
  let text ← decodeTextTokens (data.drop 7)
  return ⟨p, a, g, z, zoneTypeFrom t, zoneStatusFrom s, text⟩

/-- `ZoneStatusData` in `src/equipment.rs`. -/
structure ZoneStatusData where
  partitionNumber : Nat
  areaNumber : Nat
  zoneNumber : Nat
  zoneStatus : ZoneStatus
  deriving DecidableEq, Repr

/-- The compound key behind `ZoneStatusData::zone_id()`. -/
def ZoneStatusData.zoneKey (z : ZoneStatusData) : Nat × Nat :=
  (z.partitionNumber, z.zoneNumber)

/-- `impl From<Vec<u8>> for ZoneStatusData`: offsets 0,1,3,4. -/
def zoneStatusDataFrom (data : List Nat) : Option ZoneStatusData := do
  let p ← data.get? 0
  let a ← data.get? 1
  let z ← data.get? 3
  let s ← data.get? 4
  return ⟨p, a, z, zoneStatusFrom s⟩

/-- `PartitionArmingLevel` in `src/equipment.rs`. -/
inductive PartitionArmingLevel where
  | off | stay | away | phoneTest | sensorTest
  deriving DecidableEq, Repr

/-- `impl From<u8> for PartitionArmingLevel`. -/
def partitionArmingLevelFrom (value : Nat) : PartitionArmingLevel :=
  match value with
  | 0x1 => .off | 0x2 => .stay | 0x3 => .away | 0x8 => .phoneTest
  | 0x9 => .sensorTest | _ => .off

/-- `ArmingLevel` in `src/equipment.rs`. -/
inductive ArmingLevel where
  | zoneTest | off | home | away | night | silent
  deriving DecidableEq, Repr

/-- `impl From<u8> for ArmingLevel`. -/
def armingLevelFrom (value : Nat) : ArmingLevel :=
  match value with
  | 0x0 => .zoneTest | 0x1 => .off | 0x2 => .home | 0x3 => .away
  | 0x4 => .night | 0x5 => .silent | _ => .off

/-- `impl From<PartitionArmingLevel> for ArmingLevel`. -/
def armingLevelOfPartitionLevel : PartitionArmingLevel → ArmingLevel
  | .stay => .home
  | .away => .away
  | .phoneTest => .zoneTest
  | .sensorTest => .zoneTest
  | .off => .off

/-- `PartitionData` in `src/equipment.rs`; `zones: HashSet<String>` is modelled
as a finite set of compound zone keys. -/
structure PartitionData where
  partitionNumber : Nat
  areaNumber : Nat
  armingLevel : ArmingLevel
  zones : Finset (Nat × Nat)
  deriving DecidableEq

/-- `impl From<Vec<u8>> for PartitionData`: offsets 0,1,2 and an empty zone
set. -/
def partitionDataFrom (data : List Nat) : Option PartitionData := do
  let p ← data.get? 0
  let a ← data.get? 1
  let l ← data.get? 2
  return ⟨p, a, armingLevelOfPartitionLevel (partitionArmingLevelFrom l), ∅⟩

/-- `PanelType` in `src/equipment.rs`. -/
inductive PanelType where
  | concord | concordExpress | concordExpress4 | concordEuro
  deriving DecidableEq, Repr

/-- `impl From<u8> for PanelType`. -/
def panelTypeFrom (value : Nat) : PanelType :=
  match value with
  | 0x14 => .concord | 0x0b => .concordExpress | 0x1e => .concordExpress4
  | 0x0e => .concordEuro | _ => .concord

/-- `PanelData` in `src/equipment.rs`. -/
structure PanelData where
  panelType : PanelType
  hardwareRevision : String
  softwareRevision : String
  serialNumber : String
  deriving DecidableEq, Repr

/-- `impl From<Vec<u8>> for PanelData`: offsets 0 through 8 with the
`format!` renderings of the revision and serial fields. -/
def panelDataFrom (data : List Nat) : Option PanelData := do
  let d0 ← data.get? 0
  let d1 ← data.get? 1
  let d2 ← data.get? 2
  let d3 ← data.get? 3
  let d4 ← data.get? 4
  let d5 ← data.get? 5
  let d6 ← data.get? 6
  let d7 ← data.get? 7
  let d8 ← data.get? 8
  return ⟨panelTypeFrom d0,
    String.mk [letterFromRepresentativeHex d1] ++ natToHexUp d2,
    natToHexUp d3 ++ natToHexUp d4,
    natToHexUp d5 ++ natToHexUp d6 ++ natToHexUp d7 ++ natToHexUp d8⟩

/-- `ArmingLevelData` in `src/equipment.rs`. -/
structure ArmingLevelData where
  partitionNumber : Nat
  areaNumber : Nat
  armingLevel : ArmingLevel
  deriving DecidableEq, Repr

/-- `impl From<Vec<u8>> for ArmingLevelData`: offsets 0, 1 and 4. -/
def armingLevelDataFrom (data : List Nat) : Option ArmingLevelData := do
  let p ← data.get? 0
  let a ← data.get? 1
  let l ← data.get? 4
  return ⟨p, a, armingLevelFrom l⟩

/-- `Feature` in `src/equipment.rs`. -/
inductive Feature where
  | chime | energySaver | noDelay | latchKey | silentArm | quickArm
  deriving DecidableEq, Repr

/-- `impl From<u8> for Feature`. -/
def featureFrom (value : Nat) : Feature :=
  match value with
  | 0x01 => .chime | 0x02 => .energySaver | 0x04 => .noDelay
  | 0x08 => .latchKey | 0x10 => .silentArm | 0x20 => .quickArm | _ => .chime

/-- `FeatureState` in `src/equipment.rs`. -/
structure FeatureState where
  partitionNumber : Nat
  areaNumber : Nat
  featureState : Feature
  deriving DecidableEq, Repr

/-- `impl From<Vec<u8>> for FeatureState`: offsets 0,1,2. -/
def featureStateFrom (data : List Nat) : Option FeatureState := do
  let p ← data.get? 0
  let a ← data.get? 1
  let f ← data.get? 2
  return ⟨p, a, featureFrom f⟩

/-- `TimeDate` in `src/equipment.rs`. -/
structure TimeDate where
  hour : Nat
  minute : Nat
  month : Nat
  day : Nat
  year : Nat
  deriving DecidableEq, Repr

/-- `impl From<Vec<u8>> for TimeDate`: offsets 0 through 4. -/
def timeDateFrom (data : List Nat) : Option TimeDate := do
  let h ← data.get? 0
  let m ← data.get? 1
  let mo ← data.get? 2
  let d ← data.get? 3
  let y ← data.get? 4
  return ⟨h, m, mo, d, y⟩

/-- `SuperBusDeviceStatus` in `src/equipment.rs`. -/
inductive SuperBusDeviceStatus where
  | ok | failed
  deriving DecidableEq, Repr

/-- `impl From<u8> for SuperBusDeviceStatus`. -/
def superBusDeviceStatusFrom (data : Nat) : SuperBusDeviceStatus :=
  match data with
  | 0x0 => .ok | 0x1 => .failed | _ => .failed

/-- `SuperBusDeviceData` in `src/equipment.rs`. -/
structure SuperBusDeviceData where
  partitionNumber : Nat
  areaNumber : Nat
  deviceId : Nat × Nat × Nat
  deviceStatus : SuperBusDeviceStatus
  deriving DecidableEq, Repr

/-- `impl From<Vec<u8>> for SuperBusDeviceData`: offsets 0 through 5. -/
def superBusDeviceDataFrom (data : List Nat) : Option SuperBusDeviceData := do
  let p ← data.get? 0
  let a ← data.get? 1
  let i0 ← data.get? 2
  let i1 ← data.get? 3
  let i2 ← data.get? 4
  let s ← data.get? 5
  return ⟨p, a, (i0, i1, i2), superBusDeviceStatusFrom s⟩

/-- `SuperBusDeviceCapabilityData` in `src/equipment.rs`. -/
inductive SuperBusDeviceCapabilityData where
  | powerSupervision | accessControl | analogSmoke | audioListenIn
  | snapCardSupervision | microburst | dualPhoneLine | energyManagement
  | inputZones (n : Nat) | phastAutomationSystemManager | phoneInterface
  | relayOutputs (n : Nat) | rfReceiver | rfTransmitter | parallelPrinter
  | unknown | ledTouchpad | oneLineTwoLineBltTouchpad | guiTouchpad
  | voiceEvacuation | pager | downloadableCodeData | jTechPremisePager
  | cryptography | ledDisplay
  deriving DecidableEq, Repr

/-- `impl From<&[u8]> for SuperBusDeviceCapabilityData`: `data[1]` is only read
by the `InputZones`/`RelayOutputs` arms. -/
def superBusDeviceCapabilityDataFrom (data : List Nat) :
    Option SuperBusDeviceCapabilityData := do
  let d0 ← data.get? 0
  match d0 with
  | 0x00 => return .powerSupervision
  | 0x01 => return .accessControl
  | 0x02 => return .analogSmoke
  | 0x03 => return .audioListenIn
  | 0x04 => return .snapCardSupervision
  | 0x05 => return .microburst
  | 0x06 => return .dualPhoneLine
  | 0x07 => return .energyManagement
  | 0x08 => do let d1 ← data.get? 1; return .inputZones d1
  | 0x09 => return .phastAutomationSystemManager
  | 0x0A => return .phoneInterface
  | 0x0B => do let d1 ← data.get? 1; return .relayOutputs d1
  | 0x0C => return .rfReceiver
  | 0x0D => return .rfTransmitter
  | 0x0E => return .parallelPrinter
  | 0x0F => return .unknown
  | 0x10 => return .ledTouchpad
  | 0x11 => return .oneLineTwoLineBltTouchpad
  | 0x12 => return .guiTouchpad
  | 0x13 => return .voiceEvacuation
  | 0x14 => return .pager
  | 0x15 => return .downloadableCodeData
  | 0x16 => return .jTechPremisePager
  | 0x17 => return .cryptography
  | 0x18 => return .ledDisplay
  | _ => return .unknown

/-- `SuperBusDeviceCapability` in `src/equipment.rs`. -/
structure SuperBusDeviceCapability where
  deviceId : Nat × Nat × Nat
  capability : SuperBusDeviceCapabilityData
  deriving DecidableEq, Repr

/-- `impl From<Vec<u8>> for SuperBusDeviceCapability`: offsets 0,1,2 then the
capability from `&data[3..]`. -/
def superBusDeviceCapabilityFrom (data : List Nat) :
    Option SuperBusDeviceCapability := do
  let i0 ← data.get? 0
  let i1 ← data.get? 1
  let i2 ← data.get? 2
  let c ← superBusDeviceCapabilityDataFrom (data.drop 3)
  return ⟨(i0, i1, i2), c⟩

/-- `CodeType` in `src/equipment.rs`. -/
inductive CodeType where
  | user (n : Nat) | master (n : Nat) | duress (n : Nat) | systemMaster
  | installer | dealer | avm | quickArm | keySwitch | system
  deriving DecidableEq, Repr

/-- `impl From<u8> for CodeType`. -/
def codeTypeFrom (data : Nat) : CodeType :=
  if data ≤ 229 then .user data
  else if data ≤ 237 then .master (data - 230)
  else if data ≤ 245 then .duress (data - 238)
  else if data = 246 then .systemMaster
  else if data = 247 then .installer
  else if data = 248 then .dealer
  else if data = 249 then .avm
  else if data = 250 then .quickArm
  else if data = 251 then .keySwitch
  else if data = 252 then .system
  else .user data

/-- `UserData` in `src/equipment.rs`. -/
structure UserData where
  number : Nat × Nat
  userType : CodeType
  code : Option (Nat × Nat × Nat × Nat)
  deriving DecidableEq, Repr

/-- `impl From<Vec<u8>> for UserData`: lengths above 2 also read the BCD code
nibbles at offsets 3 and 4. -/
def userDataFrom (data : List Nat) : Option UserData := do
  if data.length > 2 then
    let d0 ← data.get? 0
    let d1 ← data.get? 1
    let d3 ← data.get? 3
    let d4 ← data.get? 4
    return ⟨(d0, d1), codeTypeFrom d1, some (d3 / 16, d3 % 16, d4 / 16, d4 % 16)⟩
  else
    let d0 ← data.get? 0
    let d1 ← data.get? 1
    return ⟨(d0, d1), codeTypeFrom d1, none⟩

/-- `TouchpadDisplay` in `src/touchpad.rs`. -/
structure TouchpadDisplay where
  partitionNumber : Nat
  areaNumber : Nat
  messageType : Nat
  displayTokens : List Nat
  text : String
  deriving DecidableEq, Repr

/-- `impl From<Vec<u8>> for TouchpadDisplay`: offsets 0,1,2 then the decoded
tokens from offset 3. -/
def touchpadDisplayFrom (data : List Nat) : Option TouchpadDisplay := do
  let p ← data.get? 0
  let a ← data.get? 1
  let m ← data.get? 2
  let text ← decodeTextTokens (data.drop 3)
  return ⟨p, a, m, data.drop 3, text⟩

/-- `SirenStop` in `src/equipment.rs`. -/
structure SirenStop where
  partitionNumber : Nat
  areaNumber : Nat
  deriving DecidableEq, Repr

/-- `impl From<Vec<u8>> for SirenStop`: offsets 0 and 1. -/
def sirenStopFrom (data : List Nat) : Option SirenStop := do
  let p ← data.get? 0
  let a ← data.get? 1
  return ⟨p, a⟩

/-- `EventSource` in `src/equipment.rs`. -/
inductive EventSource where
  | busDevice | localPhone | zone | system | remotePhone
  deriving DecidableEq, Repr

/-- `impl From<u8> for EventSource`. -/
def eventSourceFrom (data : Nat) : EventSource :=
  match data with
  | 0x0 => .busDevice | 0x1 => .localPhone | 0x2 => .zone | 0x3 => .system
  | 0x4 => .remotePhone | _ => .busDevice

/-! ### The alarm/trouble event union (`src/equipment.rs`) -/

/-- `AlarmEventData` in `src/equipment.rs`. -/
inductive AlarmEventData where
  | unspecified | fire | firePanic | police | policePanic | medical
  | medicalPanic | auxiliary | auxiliaryPanic | tamper | noActivity
  | suspicion | notUsed | lowTemperature | highTemperature
  | keystrokeViolation | duress | exitFault | explosiveGas | carbonMonoxide
  | environmental | latchkey (a b : Nat) | equipmentTamper | holdup
  | sprinkler | heat | sirenTamper | smoke | repeaterTamper | firePumpActive
  | firePumpFailure | fireGateValve | lowCO2Pressure | lowLiquidPressure
  | lowLiquidLevel | entryExit | perimeter | interior | near | waterAlarm
  deriving DecidableEq, Repr

/-- `impl From<&[u8]> for AlarmEventData`: only the `Latchkey` arm reads
`data[1]`/`data[2]`. -/
def alarmEventDataFrom (data : List Nat) : Option AlarmEventData := do
  let d0 ← data.get? 0
  match d0 with
  | 0x00 => return .unspecified
  | 0x01 => return .fire
  | 0x02 => return .firePanic
  | 0x03 => return .police
  | 0x04 => return .policePanic
  | 0x05 => return .medical
  | 0x06 => return .medicalPanic
  | 0x07 => return .auxiliary
  | 0x08 => return .auxiliaryPanic
  | 0x09 => return .tamper
  | 0x0A => return .noActivity
  | 0x0B => return .suspicion
  | 0x0C => return .notUsed
  | 0x0D => return .lowTemperature
  | 0x0E => return .highTemperature
  | 0x0F => return .keystrokeViolation
  | 0x10 => return .duress
  | 0x11 => return .exitFault
  | 0x12 => return .explosiveGas
  | 0x13 => return .carbonMonoxide
  | 0x14 => return .environmental
  | 0x15 => do let a ← data.get? 1; let b ← data.get? 2; return .latchkey a b
  | 0x16 => return .equipmentTamper
  | 0x17 => return .holdup
  | 0x18 => return .sprinkler
  | 0x19 => return .heat
  | 0x1A => return .sirenTamper
  | 0x1B => return .smoke
  | 0x1C => return .repeaterTamper
  | 0x1D => return .firePumpActive
  | 0x1E => return .firePumpFailure
  | 0x1F => return .fireGateValve
  | 0x20 => return .lowCO2Pressure
  | 0x21 => return .lowLiquidPressure
  | 0x22 => return .lowLiquidLevel
  | 0x23 => return .entryExit
  | 0x24 => return .perimeter
  | 0x25 => return .interior
  | 0x26 => return .near
  | 0x27 => return .waterAlarm
  | _ => return .unspecified

/-- `FireEventData` in `src/equipment.rs`. -/
inductive FireEventData where
  | unspecified | hardwire | groundFault | device | supervisory | lowBattery
  | tamper | sam | partialObscurity | jam | zoneAcFail | nu | nacTrouble
  | analogZoneTrouble | fireSupervisory | pumpFail | fireGateValveClosed
  | co2PressureTrouble | liquidPressureTrouble | liquidLevelTrouble
  deriving DecidableEq, Repr

/-- `impl From<&[u8]> for FireEventData`. -/
def fireEventDataFrom (data : List Nat) : Option FireEventData := do
  let d0 ← data.get? 0
  match d0 with
  | 0x00 => return .unspecified
  | 0x01 => return .hardwire
  | 0x02 => return .groundFault
  | 0x03 => return .device
  | 0x04 => return .supervisory
  | 0x05 => return .lowBattery
  | 0x06 => return .tamper
  | 0x07 => return .sam
  | 0x08 => return .partialObscurity
  | 0x09 => return .jam
  | 0x0A => return .zoneAcFail
  | 0x0B => return .nu
  | 0x0C => return .nacTrouble
  | 0x0D => return .analogZoneTrouble
  | 0x0E => return .fireSupervisory
  | 0x0F => return .pumpFail
  | 0x10 => return .fireGateValveClosed
  | 0x11 => return .co2PressureTrouble
  | 0x12 => return .liquidPressureTrouble
  | 0x13 => return .liquidLevelTrouble
  | _ => return .unspecified

/-- `BypassEventData` in `src/equipment.rs`. -/
inductive BypassEventData where
  | directBypass (a b : Nat) | indirectBypass (a b : Nat) | swingerBypass
  | inhibit (a b : Nat)
  deriving DecidableEq, Repr

/-- `impl From<&[u8]> for BypassEventData`: the wildcard arm also reads
`data[1]`/`data[2]`. -/
def bypassEventDataFrom (data : List Nat) : Option BypassEventData := do
  let d0 ← data.get? 0
  match d0 with
  | 0x00 => do let a ← data.get? 1; let b ← data.get? 2; return .directBypass a b
  | 0x01 => do let a ← data.get? 1; let b ← data.get? 2; return .indirectBypass a b
  | 0x02 => return .swingerBypass
  | 0x03 => do let a ← data.get? 1; let b ← data.get? 2; return .inhibit a b
  | _ => do let a ← data.get? 1; let b ← data.get? 2; return .directBypass a b

/-- `OpeningEventData` in `src/equipment.rs`. -/
inductive OpeningEventData where
  | normalOpen (a b : Nat) | earlyOpen (a b : Nat) | lateOpen (a b : Nat)
  | failToOpen | openException (a b : Nat) | openExtension (a b : Nat)
  | openUsingKeyfob | scheduledOpen | remoteOpen (a b : Nat)
  deriving DecidableEq, Repr

/-- `impl From<&[u8]> for OpeningEventData`. -/
def openingEventDataFrom (data : List Nat) : Option OpeningEventData := do
  let d0 ← data.get? 0
  match d0 with
  | 0x00 => do let a ← data.get? 1; let b ← data.get? 2; return .normalOpen a b
  | 0x01 => do let a ← data.get? 1; let b ← data.get? 2; return .earlyOpen a b
  | 0x02 => do let a ← data.get? 1; let b ← data.get? 2; return .lateOpen a b
  | 0x03 => return .failToOpen
  | 0x04 => do let a ← data.get? 1; let b ← data.get? 2; return .openException a b
  | 0x05 => do let a ← data.get? 1; let b ← data.get? 2; return .openExtension a b
  | 0x06 => return .openUsingKeyfob
  | 0x07 => return .scheduledOpen
  | 0x08 => do let a ← data.get? 1; let b ← data.get? 2; return .remoteOpen a b
  | _ => do let a ← data.get? 1; let b ← data.get? 2; return .normalOpen a b

/-- `ClosingEventData` in `src/equipment.rs`. -/
inductive ClosingEventData where
  | normalClose (a b : Nat) | earlyClose (a b : Nat) | lateClose (a b : Nat)
  | failToClose | closeException (a b : Nat) | closeExtension (a b : Nat)
  | closeUsingKeyfob | scheduledClose | remoteClose (a b : Nat)
  | recentClose (a b : Nat)
  deriving DecidableEq, Repr

/-- `impl From<&[u8]> for ClosingEventData`. -/
def closingEventDataFrom (data : List Nat) : Option ClosingEventData := do
  let d0 ← data.get? 0
  match d0 with
  | 0x00 => do let a ← data.get? 1; let b ← data.get? 2; return .normalClose a b
  | 0x01 => do let a ← data.get? 1; let b ← data.get? 2; return .earlyClose a b
  | 0x02 => do let a ← data.get? 1; let b ← data.get? 2; return .lateClose a b
  | 0x03 => return .failToClose
  | 0x04 => do let a ← data.get? 1; let b ← data.get? 2; return .closeException a b
  | 0x05 => do let a ← data.get? 1; let b ← data.get? 2; return .closeExtension a b
  | 0x06 => return .closeUsingKeyfob
  | 0x07 => return .scheduledClose
  | 0x08 => do let a ← data.get? 1; let b ← data.get? 2; return .remoteClose a b
  | 0x09 => do let a ← data.get? 1; let b ← data.get? 2; return .recentClose a b
  | _ => do let a ← data.get? 1; let b ← data.get? 2; return .normalClose a b

/-- `PartitionConfigEventData` in `src/equipment.rs`. -/
inductive PartitionConfigEventData where
  | userAccessCodeAdded (a b : Nat) | userAccessCodeDeleted (a b : Nat)
  | userAccessCodeChanged (a b : Nat) | userAccessCodeExpired (a b : Nat)
  | userCodeAuthorityChanged | authorityLevelsChanged | scheduleChanged
  | armingOrOcScheduleChanged | zoneAdded | zoneDeleted
  deriving DecidableEq, Repr

/-- `impl From<&[u8]> for PartitionConfigEventData`. -/
def partitionConfigEventDataFrom (data : List Nat) :
    Option PartitionConfigEventData := do
  let d0 ← data.get? 0
  match d0 with
  | 0x00 => do
    let a ← data.get? 1; let b ← data.get? 2; return .userAccessCodeAdded a b
  | 0x01 => do
    let a ← data.get? 1; let b ← data.get? 2; return .userAccessCodeDeleted a b
  | 0x02 => do
    let a ← data.get? 1; let b ← data.get? 2; return .userAccessCodeChanged a b
  | 0x03 => do
    let a ← data.get? 1; let b ← data.get? 2; return .userAccessCodeExpired a b
  | 0x04 => return .userCodeAuthorityChanged
  | 0x05 => return .authorityLevelsChanged
  | 0x06 => return .scheduleChanged
  | 0x07 => return .armingOrOcScheduleChanged
  | 0x08 => return .zoneAdded
  | 0x09 => return .zoneDeleted
  | _ => do
    let a ← data.get? 1; let b ← data.get? 2; return .userAccessCodeAdded a b

/-- `PartitionEventData` in `src/equipment.rs`. -/
inductive PartitionEventData where
  | scheduleOn (a b : Nat) | scheduleOff (a b : Nat) | latchkeyOn | latchkeyOff
  | smokeDetectorsReset | validUserAccessCodeEntered (a b : Nat)
  | armingLevelChanged (a b : Nat) | alarmReported | agentRelease
  | agentReleaseRestoral | partitionRemoteAccess
  | keystrokeViolationInPartition | manualForceArm (a b : Nat)
  | autoForceArm | autoForceArmFailed | armingProtestBegun (a b : Nat)
  | armingProtestEnded (a b : Nat)
  deriving DecidableEq, Repr

/-- `impl From<&[u8]> for PartitionEventData`. -/
def partitionEventDataFrom (data : List Nat) : Option PartitionEventData := do
  let d0 ← data.get? 0
  match d0 with
  | 0x00 => do let a ← data.get? 1; let b ← data.get? 2; return .scheduleOn a b
  | 0x01 => do let a ← data.get? 1; let b ← data.get? 2; return .scheduleOff a b
  | 0x02 => return .latchkeyOn
  | 0x03 => return .latchkeyOff
  | 0x04 => return .smokeDetectorsReset
  | 0x05 => do
    let a ← data.get? 1; let b ← data.get? 2
    return .validUserAccessCodeEntered a b
  | 0x06 => do
    let a ← data.get? 1; let b ← data.get? 2; return .armingLevelChanged a b
  | 0x07 => return .alarmReported
  | 0x08 => return .agentRelease
  | 0x09 => return .agentReleaseRestoral
  | 0x0A => return .partitionRemoteAccess
  | 0x0B => return .keystrokeViolationInPartition
  | 0x0C => do
    let a ← data.get? 1; let b ← data.get? 2; return .manualForceArm a b
  | 0x0D => return .autoForceArm
  | 0x0E => return .autoForceArmFailed
  | 0x0F => do
    let a ← data.get? 1; let b ← data.get? 2; return .armingProtestBegun a b
  | 0x10 => do
    let a ← data.get? 1; let b ← data.get? 2; return .armingProtestEnded a b
  | _ => do let a ← data.get? 1; let b ← data.get? 2; return .scheduleOn a b

/-- `PartitionTestEventData` in `src/equipment.rs`. -/
inductive PartitionTestEventData where
  | manualPhoneTest (a b : Nat) | autoPhoneTest
  | autoPhoneTestWithExistingTrouble | phoneTestOk | phoneTestFailed
  | userSensorTestStarted (a b : Nat) | userSensorTestEnded (a b : Nat)
  | userSenorTestCompleted (a b : Nat) | userSensorTestIncomplete (a b : Nat)
  | userSensorTestTrip | installerSensorTestStarted | installerSensorTestEnded
  | installerSensorTestCompleted | installerSensorTestIncomplete
  | installerSensorTestTrip | fireDrillStarted (a b : Nat)
  deriving DecidableEq, Repr

/-- `impl From<&[u8]> for PartitionTestEventData`. -/
def partitionTestEventDataFrom (data : List Nat) :
    Option PartitionTestEventData := do
  let d0 ← data.get? 0
  match d0 with
  | 0x00 => do
    let a ← data.get? 1; let b ← data.get? 2; return .manualPhoneTest a b
  | 0x01 => return .autoPhoneTest
  | 0x02 => return .autoPhoneTestWithExistingTrouble
  | 0x03 => return .phoneTestOk
  | 0x04 => return .phoneTestFailed
  | 0x05 => do
    let a ← data.get? 1; let b ← data.get? 2; return .userSensorTestStarted a b
  | 0x06 => do
    let a ← data.get? 1; let b ← data.get? 2; return .userSensorTestEnded a b
  | 0x07 => do
    let a ← data.get? 1; let b ← data.get? 2; return .userSenorTestCompleted a b
  | 0x08 => do
    let a ← data.get? 1; let b ← data.get? 2
    return .userSensorTestIncomplete a b
  | 0x09 => return .userSensorTestTrip
  | 0x0A => return .installerSensorTestStarted
  | 0x0B => return .installerSensorTestEnded
  | 0x0C => return .installerSensorTestCompleted
  | 0x0D => return .installerSensorTestIncomplete
  | 0x0E => return .installerSensorTestTrip
  | 0x0F => do
    let a ← data.get? 1; let b ← data.get? 2; return .fireDrillStarted a b
  | _ => do
    let a ← data.get? 1; let b ← data.get? 2; return .manualPhoneTest a b

/-- `SystemTroubleEventData` in `src/equipment.rs` (all arms are nullary). -/
inductive SystemTroubleEventData where
  | busReceiverFailure | busAntennaTamper | mainLowBattery
  | snapCardLowBattery | moduleLowBattery | mainAcFailure | snapCardAcFailure
  | moduleAcFailure | auxPowerFailure | busShutdown | busLowPowerMode
  | phoneLine1Failure | phoneLine2Failure | remotePhoneTamper | watchdogReset
  | ramFailure | flashFailure | printerError | historyBufferAlmostFull
  | historyBufferOverflow | reportBufferOverflow | busDeviceFailure
  | failureToCommunicate | longRangeRadioTrouble | moduleTamperTrouble
  | unenrolledModuleTrouble | audioOutputTrouble | analogModuleTrouble
  | cellModuleTrouble | buddy1Failure | buddy2Failure | buddy3Failure
  | buddy4Failure | snapCardTrouble | analogLoopShort | analogLoopBreak
  | analogAddress0 | unenrolledAnalogHead | duplicateAnalogHead
  | analogModuleInitializing | microphoneSwitchTrouble | microphoneTrouble
  | microphoneWiringTrouble | jTechPremisePagingTrouble
  | voiceSirenTamperTrouble | microburstTransmitFailure
  | microburstTransmitDisabled | microburstModuleFailure
  | microburstNotInService | automationSupervisoryTrouble
  | microburstModuleInitializing | printerPaperOutTrouble
  deriving DecidableEq, Repr

/-- `impl From<&[u8]> for SystemTroubleEventData`. -/
def systemTroubleEventDataFrom (data : List Nat) :
    Option SystemTroubleEventData := do
  let d0 ← data.get? 0
  match d0 with
  | 0x00 => return .busReceiverFailure
  | 0x01 => return .busAntennaTamper
  | 0x02 => return .mainLowBattery
  | 0x03 => return .snapCardLowBattery
  | 0x04 => return .moduleLowBattery
  | 0x05 => return .mainAcFailure
  | 0x06 => return .snapCardAcFailure
  | 0x07 => return .moduleAcFailure
  | 0x08 => return .auxPowerFailure
  | 0x09 => return .busShutdown
  | 0x0A => return .busLowPowerMode
  | 0x0B => return .phoneLine1Failure
  | 0x0C => return .phoneLine2Failure
  | 0x0D => return .remotePhoneTamper
  | 0x0E => return .watchdogReset
  | 0x0F => return .ramFailure
  | 0x10 => return .flashFailure
  | 0x11 => return .printerError
  | 0x12 => return .historyBufferAlmostFull
  | 0x13 => return .historyBufferOverflow
  | 0x14 => return .reportBufferOverflow
  | 0x15 => return .busDeviceFailure
  | 0x16 => return .failureToCommunicate
  | 0x17 => return .longRangeRadioTrouble
  | 0x18 => return .moduleTamperTrouble
  | 0x19 => return .unenrolledModuleTrouble
  | 0x1A => return .audioOutputTrouble
  | 0x1B => return .analogModuleTrouble
  | 0x1C => return .cellModuleTrouble
  | 0x1D => return .buddy1Failure
  | 0x1E => return .buddy2Failure
  | 0x1F => return .buddy3Failure
  | 0x20 => return .buddy4Failure
  | 0x21 => return .snapCardTrouble
  | 0x22 => return .analogLoopShort
  | 0x23 => return .analogLoopBreak
  | 0x24 => return .analogAddress0
  | 0x25 => return .unenrolledAnalogHead
  | 0x26 => return .duplicateAnalogHead
  | 0x27 => return .analogModuleInitializing
  | 0x28 => return .microphoneSwitchTrouble
  | 0x29 => return .microphoneTrouble
  | 0x2A => return .microphoneWiringTrouble
  | 0x2B => return .jTechPremisePagingTrouble
  | 0x2C => return .voiceSirenTamperTrouble
  | 0x2D => return .microburstTransmitFailure
  | 0x2E => return .microburstTransmitDisabled
  | 0x2F => return .microburstModuleFailure
  | 0x30 => return .microburstNotInService
  | 0x31 => return .automationSupervisoryTrouble
  | 0x32 => return .microburstModuleInitializing
  | 0x33 => return .printerPaperOutTrouble
  | _ => return .busReceiverFailure

/-- `SystemConfigChangeEventData` in `src/equipment.rs`. -/
inductive SystemConfigChangeEventData where
  | programModeEntry | programModeExitWithoutChange | programModeExitWithChange
  | downloaderSessionStart | downloaderSessionEndWithoutChange
  | downloaderSessionEndWithChange | downloaderError
  | downloaderConnectionDenied | dateTimeChanged | moduleAdded | moduleDeleted
  | speechTokensChanged | codeChanged | panelFirstService | panelBackInService
  | installerCodeChanged
  deriving DecidableEq, Repr

/-- `impl From<&[u8]> for SystemConfigChangeEventData`. -/
def systemConfigChangeEventDataFrom (data : List Nat) :
    Option SystemConfigChangeEventData := do
  let d0 ← data.get? 0
  match d0 with
  | 0x00 => return .programModeEntry
  | 0x01 => return .programModeExitWithoutChange
  | 0x02 => return .programModeExitWithChange
  | 0x03 => return .downloaderSessionStart
  | 0x04 => return .downloaderSessionEndWithoutChange
  | 0x05 => return .downloaderSessionEndWithChange
  | 0x06 => return .downloaderError
  | 0x07 => return .downloaderConnectionDenied
  | 0x08 => return .dateTimeChanged
  | 0x09 => return .moduleAdded
  | 0x0A => return .moduleDeleted
  | 0x0B => return .speechTokensChanged
  | 0x0C => return .codeChanged
  | 0x0D => return .panelFirstService
  | 0x0E => return .panelBackInService
  | 0x0F => return .installerCodeChanged
  | _ => return .programModeEntry

/-- `SystemEventData` in `src/equipment.rs`. -/
inductive SystemEventData where
  | callbackRequested | outputActivity | buddyReception
  | buddyTransmissionRequest | historyBufferCleared | outputOn (a b : Nat)
  | outputOff (a b : Nat)
  deriving DecidableEq, Repr

/-- `impl From<&[u8]> for SystemEventData`. -/
def systemEventDataFrom (data : List Nat) : Option SystemEventData := do
  let d0 ← data.get? 0
  match d0 with
  | 0x00 => return .callbackRequested
  | 0x01 => return .outputActivity
  | 0x02 => return .buddyReception
  | 0x03 => return .buddyTransmissionRequest
  | 0x04 => return .historyBufferCleared
  | 0x05 => do let a ← data.get? 1; let b ← data.get? 2; return .outputOn a b
  | 0x06 => do let a ← data.get? 1; let b ← data.get? 2; return .outputOff a b
  | _ => return .callbackRequested

/-- `Event` in `src/equipment.rs`. -/
inductive Event where
  | alarm (d : AlarmEventData)
  | fire (d : FireEventData)
  | bypass (d : BypassEventData)
  | opening (d : OpeningEventData)
  | closing (d : ClosingEventData)
  | partitionConfig (d : PartitionConfigEventData)
  | partition (d : PartitionEventData)
  | partitionTest (d : PartitionTestEventData)
  | systemTrouble (d : SystemTroubleEventData)
  | systemConfigChange (d : SystemConfigChangeEventData)
  | system (d : SystemEventData)
  deriving DecidableEq, Repr

/-- `impl From<&[u8]> for Event`: dispatch on `data[0]`, sub-parse `&data[1..]`. -/
def eventFrom (data : List Nat) : Option Event := do
  let d0 ← data.get? 0
  match d0 with
  | 0x00 => do let d ← alarmEventDataFrom (data.drop 1); return .alarm d
  | 0x01 => do let d ← fireEventDataFrom (data.drop 1); return .fire d
  | 0x02 => do let d ← bypassEventDataFrom (data.drop 1); return .bypass d
  | 0x03 => do let d ← openingEventDataFrom (data.drop 1); return .opening d
  | 0x04 => do let d ← closingEventDataFrom (data.drop 1); return .closing d
  | 0x05 => do
    let d ← partitionConfigEventDataFrom (data.drop 1); return .partitionConfig d
  | 0x06 => do let d ← partitionEventDataFrom (data.drop 1); return .partition d
  | 0x07 => do
    let d ← partitionTestEventDataFrom (data.drop 1); return .partitionTest d
  | 0x08 => do
    let d ← systemTroubleEventDataFrom (data.drop 1); return .systemTrouble d
  | 0x09 => do
    let d ← systemConfigChangeEventDataFrom (data.drop 1)
    return .systemConfigChange d
  | 0x0A => do let d ← systemEventDataFrom (data.drop 1); return .system d
  | _ => do let d ← alarmEventDataFrom (data.drop 1); return .alarm d

/-- `AlarmTrouble` in `src/equipment.rs`. -/
structure AlarmTrouble where
  partitionNumber : Nat
  areaNumber : Nat
  sourceType : EventSource
  sourceNumber : Nat × Nat × Nat
  event : Event
  deriving DecidableEq, Repr

/-- `impl From<Vec<u8>> for AlarmTrouble`: offsets 0 through 5, then the event
from `&data[6..]`. -/
def alarmTroubleFrom (data : List Nat) : Option AlarmTrouble := do
  let p ← data.get? 0
  let a ← data.get? 1
  let st ← data.get? 2
  let s0 ← data.get? 3
  let s1 ← data.get? 4
  let s2 ← data.get? 5
  let e ← eventFrom (data.drop 6)
  return ⟨p, a, eventSourceFrom st, (s0, s1, s2), e⟩

/-! ### The inbound message taxonomy (`src/communication.rs`) -/

/-- `RecvMessage` in `src/communication.rs`. -/
inductive RecvMessage where
  | ack
  | nak
  | panelType (d : PanelData)
  | automationEventLost (d : List Nat)
  | zoneData (d : ZoneData)
  | partitionData (d : PartitionData)
  | superBusDevData (d : SuperBusDeviceData)
  | superBusDevCap (d : SuperBusDeviceCapability)
  | outputData (d : List Nat)
  | eqptListDone
  | userData (d : UserData)
  | schedData (d : List Nat)
  | schedEventData (d : List Nat)
  | lightAttach (d : List Nat)
  | clearImage (d : List Nat)
  | zoneStatus (d : ZoneStatusData)
  | armingLevel (d : ArmingLevelData)
  | alarmTrouble (d : AlarmTrouble)
  | entryExitDelay (d : List Nat)
  | sirenSetup (d : List Nat)
  | sirenSync
  | sirenGo
  | touchpad (d : TouchpadDisplay)
  | sirenStop (d : SirenStop)
  | featState (d : FeatureState)
  | temp (d : List Nat)
  | timeAndDate (d : TimeDate)
  | lightsState (d : List Nat)
  | userLights (d : List Nat)
  | keyfob (d : List Nat)
  deriving DecidableEq

/-- The one-level dispatch table of `RecvMessage::try_from` (the `match cmd`
over `value[1..]`), entered when no two-level arm matched. -/
def recvMessageOneLevel (cmd : Nat) (data : List Nat) :
    Option (Except Unit RecvMessage) :=
  match cmd with
  | 0x01 => (panelDataFrom data).map (fun d => .ok (.panelType d))
  | 0x02 => some (.ok (.automationEventLost data))
  | 0x03 => (zoneDataFrom data).map (fun d => .ok (.zoneData d))
  | 0x04 => (partitionDataFrom data).map (fun d => .ok (.partitionData d))
  | 0x05 => (superBusDeviceDataFrom data).map (fun d => .ok (.superBusDevData d))
  | 0x06 =>
    (superBusDeviceCapabilityFrom data).map (fun d => .ok (.superBusDevCap d))
  | 0x07 => some (.ok (.outputData data))
  | 0x08 => some (.ok .eqptListDone)
  | 0x09 => (userDataFrom data).map (fun d => .ok (.userData d))
  | 0x0a => some (.ok (.schedData data))
  | 0x0b => some (.ok (.schedEventData data))
  | 0x0c => some (.ok (.lightAttach data))
  | 0x20 => some (.ok (.clearImage data))
  | 0x21 => (zoneStatusDataFrom data).map (fun d => .ok (.zoneStatus d))
  | 0x23 => some (.ok (.lightsState data))
  | _ => some (.error ())

/-- The two-level dispatch table of `RecvMessage::try_from` (the
`match (cmd, subcmd)` over `value[2..]`). -/
def recvMessageTwoLevel (cmd subcmd : Nat) (data : List Nat) :
    Option (Except Unit RecvMessage) :=
  match cmd, subcmd with
  | 0x22, 0x01 => (armingLevelDataFrom data).map (fun d => .ok (.armingLevel d))
  | 0x22, 0x02 => (alarmTroubleFrom data).map (fun d => .ok (.alarmTrouble d))
  | 0x22, 0x03 => some (.ok (.entryExitDelay data))
  | 0x22, 0x04 => some (.ok (.sirenSetup data))
  | 0x22, 0x05 => some (.ok .sirenSync)
  | 0x22, 0x06 => some (.ok .sirenGo)
  | 0x22, 0x09 => (touchpadDisplayFrom data).map (fun d => .ok (.touchpad d))
  | 0x22, 0x0b => (sirenStopFrom data).map (fun d => .ok (.sirenStop d))
  | 0x22, 0x0c => (featureStateFrom data).map (fun d => .ok (.featState d))
  | 0x22, 0x0d => some (.ok (.temp data))
  | 0x22, 0x0e => (timeDateFrom data).map (fun d => .ok (.timeAndDate d))
  | 0x23, 0x01 => some (.ok (.lightsState data))
  | 0x23, 0x02 => some (.ok (.userLights data))
  | 0x23, 0x03 => some (.ok (.keyfob data))
  | _, _ => some (.error ())

/-- `impl TryFrom<Vec<u8>> for RecvMessage`: `value[0]` (a panic, modelled
`none`, on an empty body), the optional sub-command `value[1]`, the two-level
dispatch first and the one-level table as fallback.  A `some (.error ())`
result is the `Err(())` parse failure of the source. -/
def recvMessageTryFrom (value : List Nat) : Option (Except Unit RecvMessage) :=
  match value with
  | [] => none
  | cmd :: rest =>
    match rest with
    | subcmd :: rest2 =>
      match recvMessageTwoLevel cmd subcmd rest2 with
      | none => none
      | some (.ok m) => some (.ok m)
      | some (.error _) => recvMessageOneLevel cmd rest
    | [] => recvMessageOneLevel cmd rest

/-! ### The stream decoder (`Concord4Codec::decode` in `src/serial.rs`) -/

/-- `Iterator::position`: index of the first element satisfying `p`. -/
def positionOf (p : Nat → Bool) : List Nat → Option Nat
  | [] => none
  | a :: rest => if p a then some 0 else (positionOf p rest).map (· + 1)

/-- Result of one decoder call.  `ok m buf` returns `Ok(m)` with `buf` the
bytes left in the accumulator (`Ok(None)` is both the need-more case and the
silent drop of an invalid frame); `panic` marks inputs on which the Rust
decoder panics (a failed `expect` or an out-of-bounds index). -/
inductive DecodeResult where
  | panic
  | ok (msg : Option RecvMessage) (buffer : List Nat)
  deriving DecidableEq

/-- The data-frame half of `Concord4Codec::decode`, entered at the position of
the earliest line feed: read the two ASCII-hex length chars, wait for
`2·len` more chars, consume them, hex-decode, pop the checksum, validate and
parse. -/
def decodeLfBranch (src : List Nat) (lfPos : Nat) : DecodeResult :=
  let postLf := lfPos + 1
  if src.length < postLf + ASCII_BYTE_REAL_LEN then .ok none src
  else
    match asciiHexToU8 ((src.drop postLf).take ASCII_BYTE_REAL_LEN) with
    | none => .panic
    | some dataLen =>
      let dataLenInBuffer := dataLen * ASCII_BYTE_REAL_LEN
      if dataLenInBuffer = 0 ∨
          src.length < postLf + ASCII_BYTE_REAL_LEN + dataLenInBuffer then
        .ok none src
      else
        let afterLf := src.drop postLf
        let fullData := afterLf.take (ASCII_BYTE_REAL_LEN + dataLenInBuffer)
        let newSrc := afterLf.drop (ASCII_BYTE_REAL_LEN + dataLenInBuffer)
        match asciiHexToBin (fullData.drop ASCII_BYTE_REAL_LEN) with
        | .error _ => .ok none newSrc
        | .ok decoded =>
          match decoded.getLast? with
          | none => .panic
          | some checksum =>
            let body := decoded.dropLast
            if validateChecksum dataLen body checksum then
              match recvMessageTryFrom body with
              | none => .panic
              | some (.ok m) => .ok (some m) newSrc
              | some (.error _) => .ok none newSrc
            else .ok none newSrc

/-- `Concord4Codec::decode` (`src/serial.rs`): scan for the earliest control
byte and the earliest line feed; strip and emit a control byte only when a
line feed exists *and* the control byte precedes it; otherwise decode the
frame that starts at the line feed, if any. -/
def decodeOnce (src : List Nat) : DecodeResult :=
  if src.isEmpty then .ok none src
  else
    let ctrlCtr := positionOf (fun b => b == ACK || b == NAK) src
    let newline := positionOf (fun b => b == 0x0A) src
    match ctrlCtr, newline with
    | some ctrlPos, some lfPos =>
      if ctrlPos < lfPos then
        let ctrl := src.getD ctrlPos 0
        let buffer := src.take ctrlPos ++ src.drop (ctrlPos + 1)
        if ctrl = ACK then .ok (some .ack) buffer else .ok (some .nak) buffer
      else decodeLfBranch src lfPos
    | some _, none => .ok none src
    | none, some lfPos => decodeLfBranch src lfPos
    | none, none => .ok none src

/-- Repeated decoding the way `FramedRead` drives the codec: call the decoder
until it yields no message (need-more) or panics (`none`), collecting emitted
messages.  The fuel only bounds the recursion; each emitting call consumes at
least one byte, so `buf.length` suffices. -/
def decodeStream : Nat → List Nat → Option (List RecvMessage × List Nat)
  | 0, buf => some ([], buf)
  | fuel + 1, buf =>
    match decodeOnce buf with
    | .panic => none
    | .ok none rest => some ([], rest)
    | .ok (some m) rest =>
      match decodeStream fuel rest with
      | none => none
      | some (ms, final) => some (m :: ms, final)

/-! ### The link-layer loop (`Serial::serial_loop` in `src/serial.rs`) -/

/-- `TIMEOUT_THRESHOLD` (2 seconds), in the same abstract seconds as the
model's instants. -/
def TIMEOUT_THRESHOLD : Nat := 2

/-- The protocol bookkeeping fields of `Serial`; instants are abstract
second counts, `now - lastSend` playing `last_send.elapsed()`. -/
structure SerialState where
  preparing : Bool
  ready : Bool
  sending : Bool
  resend : Bool
  lastSend : Nat
  retryCount : Nat
  lastMessage : Option SendableMessage
  deriving DecidableEq

/-- The guard of the `self.rx.recv()` select branch in `serial_loop`: returns
whether an outbound command may be dequeued, together with the side effects
the guard performs (marking a resend, or abandoning after 5 retries). -/
def recvGuard (s : SerialState) (now : Nat) : Bool × SerialState :=
  if s.sending ∧ now - s.lastSend < TIMEOUT_THRESHOLD then
    (false, s)
  else if s.sending ∧ TIMEOUT_THRESHOLD ≤ now - s.lastSend then
    if s.retryCount < 5 then
      (false, { s with resend := true })
    else
      (false, { s with sending := false, preparing := false, retryCount := 0 })
  else
    (true, s)

/-- The `if self.resend` block at the top of `serial_loop`: retransmit the
stored message (the encoder writes `encodeFrame` of it), restart the timeout
window and bump the retry counter.  Returns the new state and the wire
writes. -/
def resendStep (s : SerialState) (now : Nat) : SerialState × List (List Nat) :=
  if s.resend then
    match s.lastMessage with
    | some m =>
      ({ s with resend := false, lastSend := now, sending := true,
                retryCount := s.retryCount + 1 }, [encodeFrame m])
    | none => (s, [])
  else (s, [])

/-- The body of the dequeue branch of the select: write the frame, remember
the message, restart the timeout window, clear the retry counter. -/
def sendStep (s : SerialState) (now : Nat) (m : SendableMessage) :
    SerialState × List (List Nat) :=
  ({ s with lastSend := now, sending := true, lastMessage := some m,
            retryCount := 0 }, [encodeFrame m])

/-- The wire writes the inbound select branch performs for one decoded
message: control messages update bookkeeping only; every data frame is
answered with an encoded ACK (`self.serial.send(SendableMessage::Ack)`). -/
def inboundWriteFor (m : RecvMessage) : List (List Nat) :=
  match m with
  | .ack => []
  | .nak => []
  | _ => [encodeFrame .ack]

/-- All wire writes the link layer performs in response to an inbound byte
buffer: the decoded messages each contribute `inboundWriteFor`; a buffer that
decodes to no message contributes nothing. -/
def inboundWrites (buf : List Nat) : Option (List (List Nat)) :=
  (decodeStream buf.length buf).map (fun p => p.1.flatMap inboundWriteFor)

/-! ### The state store (`src/state.rs`)

`DashMap` is modelled as an association list whose insert replaces any
previous binding for the key (`ainsert`), with `and_modify` touching only an
existing binding (`amodify`). -/

/-- Lookup in an association list (first binding wins). -/
def alookup {α β : Type} [DecidableEq α] (l : List (α × β)) (k : α) : Option β :=
  (l.find? (fun kv => kv.1 = k)).map (fun kv => kv.2)

/-- `DashMap::insert`: bind `k` to `v`, replacing any previous binding. -/
def ainsert {α β : Type} [DecidableEq α] (l : List (α × β)) (k : α) (v : β) :
    List (α × β) :=
  (k, v) :: l.filter (fun kv => ¬ kv.1 = k)

/-- `Entry::and_modify`: apply `f` to the value bound to `k`, if any. -/
def amodify {α β : Type} [DecidableEq α] (l : List (α × β)) (k : α) (f : β → β) :
    List (α × β) :=
  l.map (fun kv => if kv.1 = k then (k, f kv.2) else kv)

/-- `Group` in `src/state.rs`; the zone set holds compound zone keys. -/
structure Group where
  partitionNumber : Nat
  number : Nat
  zones : Finset (Nat × Nat)
  deriving DecidableEq

/-- `Group::new`: an empty zone set. -/
def Group.new (partitionNumber number : Nat) : Group :=
  ⟨partitionNumber, number, ∅⟩

/-- `ConcordState` in `src/state.rs`.  Zones are keyed by the compound key
behind `p{partition}-z{zone}`, groups by the one behind
`p{partition}-g{group}`, partitions by `IntIdentifiable::id` (the partition
number). -/
structure ConcordState where
  panel : Option PanelData
  zones : List ((Nat × Nat) × ZoneData)
  partitions : List (Nat × PartitionData)
  groups : List ((Nat × Nat) × Group)
  deriving DecidableEq

/-- The all-empty store. -/
def emptyState : ConcordState := ⟨none, [], [], []⟩

/-- `ConcordState::handle_panel_type`: `OnceLock::set`, first write wins. -/
def handlePanelType (st : ConcordState) (d : PanelData) : ConcordState :=
  match st.panel with
  | some _ => st
  | none => { st with panel := some d }

/-- `ConcordState::handle_zone_data`: `and_modify` the partition's zone set
(no entry is created for an absent partition), `entry` the group — inserting
the id into an occupied group's set but inserting `Group::new` (an *empty*
set) for a vacant one — then insert the zone itself. -/
def handleZoneData (st : ConcordState) (d : ZoneData) : ConcordState :=
  let partitions := amodify st.partitions d.partitionNumber
    (fun p => { p with zones := insert d.zoneKey p.zones })
  let groups :=
    match alookup st.groups d.groupKey with
    | some _ =>
      amodify st.groups d.groupKey
        (fun g => { g with zones := insert d.zoneKey g.zones })
    | none => ainsert st.groups d.groupKey (Group.new d.partitionNumber d.groupNumber)
  let zones := ainsert st.zones d.zoneKey d
  { st with partitions := partitions, groups := groups, zones := zones }

/-- `ConcordState::handle_zone_status`: `and_modify` only the status of an
existing zone; an unknown zone is dropped silently. -/
def handleZoneStatus (st : ConcordState) (d : ZoneStatusData) : ConcordState :=
  let zones := amodify st.zones d.zoneKey
    (fun z => { z with zoneStatus := d.zoneStatus })
  { st with zones := zones }

/-- The recomputed zone set of `handle_partition_data`: the ids of exactly the
stored zones whose partition number matches. -/
def zoneKeysFor (zones : List ((Nat × Nat) × ZoneData)) (p : Nat) :
    Finset (Nat × Nat) :=
  ((zones.filter (fun kv => kv.2.partitionNumber = p)).map
    (fun kv => kv.2.zoneKey)).toFinset

/-- `ConcordState::handle_partition_data`: overwrite the record's zone set
with the recomputation from the zones map, then insert by partition number. -/
def handlePartitionData (st : ConcordState) (d : PartitionData) : ConcordState :=
  let d2 := { d with zones := zoneKeysFor st.zones d.partitionNumber }
  { st with partitions := ainsert st.partitions d.partitionNumber d2 }

/-- `ConcordState::handle_arming_level`: `and_modify` only the arming level of
an existing partition. -/
def handleArmingLevel (st : ConcordState) (d : ArmingLevelData) : ConcordState :=
  let partitions := amodify st.partitions d.partitionNumber
    (fun p => { p with armingLevel := d.armingLevel })
  { st with partitions := partitions }

/-- The record kinds the store projects that claim C9 quantifies over. -/
inductive StoreRecord where
  | zone (d : ZoneData)
  | zoneStatus (d : ZoneStatusData)
  | partition (d : PartitionData)
  deriving DecidableEq

/-- One `handle_result` step restricted to the projected record kinds. -/
def handleStoreRecord (st : ConcordState) : StoreRecord → ConcordState
  | .zone d => handleZoneData st d
  | .zoneStatus d => handleZoneStatus st d
  | .partition d => handlePartitionData st d

/-- Fold a record sequence over the empty store. -/
def runStore (records : List StoreRecord) : ConcordState :=
  records.foldl handleStoreRecord emptyState

/-! ### The public façade precondition (claim C4)

`serial.rs` imports `ClientError` from the crate root, but the crate-root
variant present under the sources is an older façade without the error
taxonomy or the `arm`/`toggle_chime` helpers, so the façade behaviour is
modelled from the specification. -/

/-- Modelled from the spec: the façade error taxonomy of §7 (the sources only
reference `ClientError` variants from `serial.rs`; the defining module is not
among them). -/
inductive ClientError where
  | armed
  | encoder
  | decoder
  | sender
  | receiver
  | serialPort
  | serialPortClosed
  | unknown (message : String)
  deriving DecidableEq

/-- Modelled from the spec: the partition a façade precondition applies to —
`Arm` and `ToggleChime` address their optional partition, defaulting to 1;
no other command is partition-checked. -/
def addressedPartition : SendableMessage → Option Nat
  | .arm options => some (options.partition.getD 1)
  | .toggleChime partition => some (partition.getD 1)
  | _ => none

/-- Modelled from the spec: `send(command)` on the façade.  "Arm and
ToggleChime MUST fail with `Armed` if the addressed partition is known to be
in any arming level other than Off", and such failures happen "without
touching the wire"; otherwise the command is encoded and written.  The result
carries the wire writes of the call. -/
def facadeSend (st : ConcordState) (cmd : SendableMessage) :
    Except ClientError (List (List Nat)) :=
  match addressedPartition cmd with
  | some part =>
    match alookup st.partitions part with
    | some pd =>
      if pd.armingLevel ≠ ArmingLevel.off then .error .armed
      else .ok [encodeFrame cmd]
    | none => .ok [encodeFrame cmd]
  | none => .ok [encodeFrame cmd]

/-- The bytes a façade `send` call puts on the wire: none when it fails. -/
def facadeSendWrites (st : ConcordState) (cmd : SendableMessage) :
    List (List Nat) :=
  match facadeSend st cmd with
  | .ok w => w
  | .error _ => []

/-! ### Remaining definitions used by the claim statements -/

/-- The `u8` range constraint the Rust types impose on the partition fields
that the encoder writes verbatim (they are `u8` in the source; the model's
`Nat` fields carry the bound as a hypothesis). -/
def messageWf : SendableMessage → Prop
  | .arm options => options.partition.getD 1 < 256
  | .disarm options => options.partition.getD 1 < 256
  | .toggleChime partition => partition.getD 1 < 256
  | .keypress partition _ => partition < 256
  | _ => True

/-- The arm key prefix as the specification words it: `[2]` for Stay, `[3]`
for Away, with `[5]` prepended when the level is Silent. -/
def specArmKeysLead (mode : ArmMode) (level : Option ArmLevel) : List Nat :=
  (if level = some ArmLevel.silent then [5] else []) ++
    (match mode with | .stay => [2] | .away => [3])

/-- The arm key suffix as the specification words it: `[4]` exactly when the
level is Instant. -/
def specArmKeysTail (level : Option ArmLevel) : List Nat :=
  if level = some ArmLevel.instant then [4] else []

/-! ## Helper lemmas -/

instance {ε α : Type} [DecidableEq ε] [DecidableEq α] : DecidableEq (Except ε α)
  | .ok a, .ok b =>
    if h : a = b then .isTrue (by rw [h]) else .isFalse (by simp [h])
  | .error a, .error b =>
    if h : a = b then .isTrue (by rw [h]) else .isFalse (by simp [h])
  | .ok _, .error _ => .isFalse (by simp)
  | .error _, .ok _ => .isFalse (by simp)

theorem le_hexCharCode (v : Nat) : 48 ≤ hexCharCode v := by
  simp only [hexCharCode]; split <;> omega

theorem hexCharCode_le (v : Nat) (h : v < 16) : hexCharCode v ≤ 70 := by
  simp only [hexCharCode]; split <;> omega

theorem hexDigitVal_hexCharCode (v : Nat) (h : v < 16) :
    hexDigitVal (hexCharCode v) = some v := by
  unfold hexCharCode hexDigitVal
  rcases Nat.lt_or_ge v 10 with hv | hv
  · rw [if_pos hv, if_pos (by omega : 48 ≤ 48 + v ∧ 48 + v ≤ 57)]
    congr 1
    omega
  · rw [if_neg (by omega : ¬v < 10),
      if_neg (by omega : ¬(48 ≤ 55 + v ∧ 55 + v ≤ 57)),
      if_pos (by omega : 65 ≤ 55 + v ∧ 55 + v ≤ 70)]
    congr 1
    omega

theorem asciiHexRender_length (l : List Nat) :
    (asciiHexRender l).length = 2 * l.length := by
  induction l with
  | nil => rfl
  | cons b rest ih => simp [asciiHexRender, ih]; omega

theorem mem_asciiHexRender (l : List Nat) (h : ∀ b ∈ l, b < 256) :
    ∀ c ∈ asciiHexRender l, 48 ≤ c ∧ c ≤ 70 := by
  induction l with
  | nil => simp [asciiHexRender]
  | cons b rest ih =>
    have hb : b < 256 := h b (by simp)
    have hdiv : b / 16 < 16 := by omega
    have hmod : b % 16 < 16 := Nat.mod_lt _ (by omega)
    intro c hc
    simp only [asciiHexRender, List.mem_cons] at hc
    rcases hc with rfl | rfl | hc
    · exact ⟨le_hexCharCode _, hexCharCode_le _ hdiv⟩
    · exact ⟨le_hexCharCode _, hexCharCode_le _ hmod⟩
    · exact ih (fun x hx => h x (by simp [hx])) c hc

theorem asciiHexToBin_asciiHexRender (l : List Nat) (h : ∀ b ∈ l, b < 256) :
    asciiHexToBin (asciiHexRender l) = .ok l := by
  induction l with
  | nil => rfl
  | cons b rest ih =>
    have hb : b < 256 := h b (by simp)
    have hdiv : b / 16 < 16 := by omega
    have hmod : b % 16 < 16 := Nat.mod_lt _ (by omega)
    have h1 : hexCharCode (b / 16) < 128 := by
      have := hexCharCode_le _ hdiv; omega
    have h2 : hexCharCode (b % 16) < 128 := by
      have := hexCharCode_le _ hmod; omega
    simp only [asciiHexRender, asciiHexToBin, h1, h2, and_self, if_true,
      hexDigitVal_hexCharCode _ hdiv, hexDigitVal_hexCharCode _ hmod,
      ih (fun x hx => h x (by simp [hx]))]
    congr 1
    simp [Nat.div_add_mod]

theorem positionOf_eq_none {p : Nat → Bool} {l : List Nat}
    (h : ∀ x ∈ l, p x = false) : positionOf p l = none := by
  induction l with
  | nil => rfl
  | cons a rest ih =>
    have ha := h a (by simp)
    simp [positionOf, ha, ih (fun x hx => h x (by simp [hx]))]

theorem positionOf_cons_of_true {p : Nat → Bool} {a : Nat} (l : List Nat)
    (h : p a = true) : positionOf p (a :: l) = some 0 := by
  simp [positionOf, h]

theorem alookup_nil {α β : Type} [DecidableEq α] (k : α) :
    alookup ([] : List (α × β)) k = none := rfl

theorem alookup_cons {α β : Type} [DecidableEq α] (a : α × β) (l : List (α × β))
    (k : α) : alookup (a :: l) k = if a.1 = k then some a.2 else alookup l k := by
  by_cases h : a.1 = k <;> simp [alookup, List.find?, h]

theorem amodify_cons {α β : Type} [DecidableEq α] (a : α × β) (l : List (α × β))
    (k : α) (f : β → β) :
    amodify (a :: l) k f = (if a.1 = k then (k, f a.2) else a) :: amodify l k f :=
  rfl

theorem alookup_filter_ne {α β : Type} [DecidableEq α]
    (l : List (α × β)) (k k' : α) (h : k' ≠ k) :
    alookup (l.filter (fun kv => ¬ kv.1 = k)) k' = alookup l k' := by
  induction l with
  | nil => rfl
  | cons kv rest ih =>
    have hrhs := alookup_cons kv rest k'
    rw [hrhs, List.filter_cons]
    by_cases hk : kv.1 = k
    · have hk' : ¬ kv.1 = k' := fun hh : kv.1 = k' => h (hh ▸ hk)
      rw [if_neg hk', if_neg (by simp [hk]), ih]
    · rw [if_pos (by simp [hk]), alookup_cons, ih]

theorem alookup_ainsert_self {α β : Type} [DecidableEq α]
    (l : List (α × β)) (k : α) (v : β) : alookup (ainsert l k v) k = some v := by
  rw [ainsert, alookup_cons]
  simp

theorem alookup_ainsert_ne {α β : Type} [DecidableEq α]
    (l : List (α × β)) (k k' : α) (v : β) (h : k' ≠ k) :
    alookup (ainsert l k v) k' = alookup l k' := by
  rw [ainsert, alookup_cons, if_neg (fun hh => h hh.symm), alookup_filter_ne l k k' h]

theorem alookup_amodify_self {α β : Type} [DecidableEq α]
    (l : List (α × β)) (k : α) (f : β → β) :
    alookup (amodify l k f) k = (alookup l k).map f := by
  induction l with
  | nil => rfl
  | cons kv rest ih =>
    rw [amodify_cons, alookup_cons, alookup_cons]
    by_cases hk : kv.1 = k
    · simp [hk]
    · simp [hk, ih]

theorem alookup_amodify_ne {α β : Type} [DecidableEq α]
    (l : List (α × β)) (k k' : α) (f : β → β) (h : k' ≠ k) :
    alookup (amodify l k f) k' = alookup l k' := by
  induction l with
  | nil => rfl
  | cons kv rest ih =>
    rw [amodify_cons]
    by_cases hk : kv.1 = k
    · have h1 : ¬ k = k' := fun hh => h hh.symm
      have h2 : ¬ kv.1 = k' := fun hh : kv.1 = k' => h (hh ▸ hk)
      rw [if_pos hk, alookup_cons, alookup_cons, if_neg h2, if_neg h1]
      exact ih
    · rw [if_neg hk, alookup_cons, alookup_cons]
      by_cases hk' : kv.1 = k'
      · rw [if_pos hk', if_pos hk']
      · rw [if_neg hk', if_neg hk', ih]

theorem asciiHexToU8_render_pair (v : Nat) (h : v < 256) :
    asciiHexToU8 [hexCharCode (v / 16), hexCharCode (v % 16)] = some v := by
  have h1 : v / 16 < 16 := by omega
  have h2 : v % 16 < 16 := Nat.mod_lt _ (by omega)
  have b1 := hexCharCode_le _ h1
  have b2 := hexCharCode_le _ h2
  simp only [asciiHexToU8]
  rw [if_pos (by simp only [validUtf8Pair]; simp; omega),
    hexDigitVal_hexCharCode _ h1, hexDigitVal_hexCharCode _ h2]
  show some (16 * (v / 16) + v % 16) = some v
  rw [Nat.div_add_mod]

/-! ## Claim theorems -/

/-- Claim C2 (evaluated at the failing input): with a lone control byte in the
buffer and no line feed at all, `Concord4Codec::decode` neither strips the
byte nor emits an `Ack`/`Nak` frame — it returns need-more and leaves the
buffer unchanged (the control byte is only processed once a later line feed
arrives, as the third conjunct shows), contrary to the claim. -/
theorem c2_ctrl_without_lf_not_stripped :
    decodeOnce [ACK] = .ok none [ACK]
  ∧ decodeOnce [NAK] = .ok none [NAK]
  ∧ decodeOnce [ACK, 0x0A] = .ok (some .ack) [0x0A] := by decide

/-- Claim C3 (evaluated at the failing input): encoding `List(ZoneData)`
produces the body `0x02, 0x01` — the `as u8` cast yields the declaration
index of the discriminant-free `ListRequest` enum — not the documented
protocol code `0x03` that the enum's own `From<u8>` maps back to `ZoneData`;
only `List(AllData)` matches the claim. -/
theorem c3_list_kind_encodes_declaration_index :
    encodeBody (.list .zoneData) = [0x02, 0x01]
  ∧ listRequestFromByte 0x03 = ListRequest.zoneData
  ∧ listRequestAsU8 .zoneData ≠ 0x03
  ∧ encodeBody (.list .allData) = [0x02] := by decide

/-- Claim C10 (evaluated at the failing inputs): the decoder is not total —
the checksum-valid frame `\n0101` of declared length 1 leaves an empty body
and `RecvMessage::try_from` panics reading `value[0]`; `ZoneData::from`
panics on a body shorter than its fixed offsets; `decode_text_tokens` panics
on a leading backspace token 0xFD (`s[..s.len() - 1]` on an empty string). -/
theorem c10_decoder_panics :
    decodeOnce [0x0A, 0x30, 0x31, 0x30, 0x31] = .panic
  ∧ recvMessageTryFrom [] = none
  ∧ zoneDataFrom [0x01, 0x01, 0x01] = none
  ∧ decodeTextTokens [0xFD] = none := by decide

/-- Claim C1, counterexample: for the concrete inbound frame `\n0205` (length
2, body `0x02`, declared checksum 5 where the valid checksum is 4) the decoder
consumes the frame and emits nothing, and the link layer performs *no* wire
write at all — in particular no NAK (0x15) — contradicting the claim's final
part. -/
theorem c1_checksum_nak_counterexample :
    decodeOnce [0x0A, 0x30, 0x32, 0x30, 0x32, 0x30, 0x35] = .ok none []
  ∧ decodeStream 7 [0x0A, 0x30, 0x32, 0x30, 0x32, 0x30, 0x35] = some ([], [])
  ∧ inboundWrites [0x0A, 0x30, 0x32, 0x30, 0x32, 0x30, 0x35] = some [] := by
  decide

/-- Claim C6, counterexample: handling a ZoneData record (partition 1, group
2, zone 3) from the empty store creates *no* partition entry, and creates the
group entry with an *empty* zone set that does not contain the zone
identifier — contradicting both "exists (created empty if it was absent)" and
"its zone set contains that same identifier". -/
theorem c6_zone_data_counterexample :
    alookup (handleZoneData emptyState
      ⟨1, 1, 2, 3, .hardwired, .normal, ""⟩).partitions 1 = none
  ∧ alookup (handleZoneData emptyState
      ⟨1, 1, 2, 3, .hardwired, .normal, ""⟩).groups (1, 2) = some ⟨1, 2, ∅⟩
  ∧ (1, 3) ∉ (Group.new 1 2).zones := by decide

set_option maxRecDepth 8192 in
/-- Claim C8, counterexample: a `Keypress` command with 252 keys has a
255-byte body, and the encoder's `data.len() as u8` truncation makes the
emitted length byte 0 rather than the claimed `1 + 255`. -/
theorem c8_length_byte_counterexample :
    (frameBytes (.keypress 1 (List.replicate 252 .zero))).head? = some 0
  ∧ (encodeBody (.keypress 1 (List.replicate 252 .zero))).length = 255
  ∧ (0 : Nat) ≠ 1 + 255 := by decide

/-- Claim C7: encoding `Arm(options)` yields the Keypress body
`0x40, partition, 0x00` followed by prefix ++ code ++ suffix, with prefix
`[2]`/`[3]` for Stay/Away (a `[5]` prepended when Silent) and suffix `[4]`
exactly when Instant; in particular
`arm(Stay, code=[1,2,3,4], level=Instant, partition=1)` has body
`40 01 00 02 01 02 03 04 04` of length 9. -/
theorem c7_arm_encoding :
    (∀ options : ArmOptions,
      encodeBody (.arm options) =
        0x40 :: options.partition.getD 1 :: 0x00 ::
          (specArmKeysLead options.mode options.level ++
            (codeKeys options.code).map keypressByte ++
            specArmKeysTail options.level))
  ∧ encodeBody (.arm ⟨.stay, (.one, .two, .three, .four), some .instant, some 1⟩)
      = [0x40, 0x01, 0x00, 0x02, 0x01, 0x02, 0x03, 0x04, 0x04]
  ∧ (encodeBody
      (.arm ⟨.stay, (.one, .two, .three, .four), some .instant, some 1⟩)).length
      = 9 := by
  refine ⟨?_, by decide, by decide⟩
  intro options
  obtain ⟨mode, code, level, partition⟩ := options
  cases mode <;> rcases level with _ | (_ | _ | _) <;>
    simp [encodeBody, armKeys, handleKeypress, specArmKeysLead,
      specArmKeysTail, codeKeys] <;> decide

/-- Claim C4 (the façade is modelled from the specification, its source module
being absent): a send of an `Arm` or `ToggleChime` command whose addressed
partition is known at an arming level other than Off fails with `Armed` and
writes nothing to the wire. -/
theorem c4_armed_precondition (st : ConcordState) (cmd : SendableMessage)
    (part : Nat) (pd : PartitionData)
    (haddr : addressedPartition cmd = some part)
    (hlookup : alookup st.partitions part = some pd)
    (hlevel : pd.armingLevel ≠ ArmingLevel.off) :
    facadeSend st cmd = .error .armed ∧ facadeSendWrites st cmd = [] := by
  have hsend : facadeSend st cmd = .error .armed := by
    simp [facadeSend, haddr, hlookup, hlevel]
  exact ⟨hsend, by simp [facadeSendWrites, hsend]⟩

/-- Witness for C4: partition 1 known at Away; `arm(Away, …)` addressed to
partition 1 fails with `Armed` and writes nothing. -/
theorem c4_armed_precondition_witness :
    facadeSend (handlePartitionData emptyState ⟨1, 1, .away, ∅⟩)
      (.arm ⟨.away, (.one, .two, .three, .four), none, some 1⟩) = .error .armed
  ∧ facadeSendWrites (handlePartitionData emptyState ⟨1, 1, .away, ∅⟩)
      (.arm ⟨.away, (.one, .two, .three, .four), none, some 1⟩) = [] :=
  c4_armed_precondition _ _ 1 ⟨1, 1, .away, ∅⟩ rfl (by decide) (by decide)

/-- Claim C5: while a data command awaits ACK/NAK the dequeue guard is closed;
once the 2-second threshold passes with fewer than 5 retries the guard marks a
resend, and the next loop iteration retransmits exactly the stored message —
the same bytes the original send wrote — incrementing the retry counter while
staying in flight; at 5 or more retries the timeout abandons the message,
clearing the in-flight flag and resetting the retry counter. -/
theorem c5_retry_discipline :
    (∀ (s : SerialState) (now : Nat),
      s.sending = true → (recvGuard s now).1 = false)
  ∧ (∀ (s : SerialState) (now now2 : Nat) (m : SendableMessage),
      s.sending = true → TIMEOUT_THRESHOLD ≤ now - s.lastSend →
      s.retryCount < 5 → s.lastMessage = some m →
      (recvGuard s now).2.resend = true
      ∧ (resendStep (recvGuard s now).2 now2).2 = [encodeFrame m]
      ∧ (resendStep (recvGuard s now).2 now2).1.retryCount = s.retryCount + 1
      ∧ (resendStep (recvGuard s now).2 now2).1.sending = true
      ∧ (resendStep (recvGuard s now).2 now2).1.resend = false
      ∧ ∀ (s0 : SerialState) (t0 : Nat),
          (resendStep (recvGuard s now).2 now2).2 = (sendStep s0 t0 m).2)
  ∧ (∀ (s : SerialState) (now : Nat),
      s.sending = true → TIMEOUT_THRESHOLD ≤ now - s.lastSend →
      5 ≤ s.retryCount →
      (recvGuard s now).1 = false
      ∧ (recvGuard s now).2.sending = false
      ∧ (recvGuard s now).2.retryCount = 0) := by
  refine ⟨?_, ?_, ?_⟩
  · intro s now hsend
    simp only [recvGuard]
    split_ifs <;> simp_all
  · intro s now now2 m hsend htime hretry hmsg
    have hguard : (recvGuard s now).2 = { s with resend := true } := by
      simp only [recvGuard]
      split_ifs <;> simp_all
      omega
    rw [hguard]
    simp [resendStep, sendStep, hmsg]
  · intro s now hsend htime hretry
    have hge : ¬ s.retryCount < 5 := by omega
    simp only [recvGuard]
    split_ifs <;> simp_all
    omega

/-- Witness for C5 at a concrete awaiting state (a `DynamicDataRefresh` in
flight since instant 0, observed at instant 3): the guard stays closed, the
resend path retransmits the stored frame with the retry counter bumped, and a
state with 5 retries is abandoned to Idle with the counter reset. -/
theorem c5_retry_discipline_witness :
    (recvGuard ⟨false, false, true, false, 0, 0, some .dynamicDataRefresh⟩ 3).1
      = false
  ∧ ((recvGuard ⟨false, false, true, false, 0, 0,
        some .dynamicDataRefresh⟩ 3).2.resend = true
      ∧ (resendStep (recvGuard ⟨false, false, true, false, 0, 0,
          some .dynamicDataRefresh⟩ 3).2 4).2
        = [encodeFrame .dynamicDataRefresh]
      ∧ (resendStep (recvGuard ⟨false, false, true, false, 0, 0,
          some .dynamicDataRefresh⟩ 3).2 4).1.retryCount = 0 + 1
      ∧ (resendStep (recvGuard ⟨false, false, true, false, 0, 0,
          some .dynamicDataRefresh⟩ 3).2 4).1.sending = true
      ∧ (resendStep (recvGuard ⟨false, false, true, false, 0, 0,
          some .dynamicDataRefresh⟩ 3).2 4).1.resend = false
      ∧ ∀ (s0 : SerialState) (t0 : Nat),
          (resendStep (recvGuard ⟨false, false, true, false, 0, 0,
            some .dynamicDataRefresh⟩ 3).2 4).2
            = (sendStep s0 t0 .dynamicDataRefresh).2)
  ∧ ((recvGuard ⟨false, false, true, false, 0, 5,
        some .dynamicDataRefresh⟩ 3).1 = false
      ∧ (recvGuard ⟨false, false, true, false, 0, 5,
          some .dynamicDataRefresh⟩ 3).2.sending = false
      ∧ (recvGuard ⟨false, false, true, false, 0, 5,
          some .dynamicDataRefresh⟩ 3).2.retryCount = 0) :=
  ⟨c5_retry_discipline.1 _ 3 rfl,
   c5_retry_discipline.2.1 _ 3 4 _ rfl (by decide) (by decide) rfl,
   c5_retry_discipline.2.2 _ 3 rfl (by decide) (by decide)⟩

/-- Claim C6 as amended: handling a ZoneData record upserts the zone at its
identifier; the partition's zone set gains the identifier only when the
partition entry already existed (an absent partition entry is *not* created);
the group entry is created when absent, but only a pre-existing group's zone
set gains the identifier — a newly created group starts with an empty zone
set. -/
theorem c6_zone_data_amended (st : ConcordState) (d : ZoneData) :
    alookup (handleZoneData st d).zones d.zoneKey = some d
  ∧ (∀ pd, alookup st.partitions d.partitionNumber = some pd →
      alookup (handleZoneData st d).partitions d.partitionNumber
        = some { pd with zones := insert d.zoneKey pd.zones })
  ∧ (alookup st.partitions d.partitionNumber = none →
      alookup (handleZoneData st d).partitions d.partitionNumber = none)
  ∧ (∀ g, alookup st.groups d.groupKey = some g →
      alookup (handleZoneData st d).groups d.groupKey
        = some { g with zones := insert d.zoneKey g.zones })
  ∧ (alookup st.groups d.groupKey = none →
      alookup (handleZoneData st d).groups d.groupKey
        = some (Group.new d.partitionNumber d.groupNumber)) := by
  refine ⟨?_, ?_, ?_, ?_, ?_⟩
  · show alookup (ainsert st.zones d.zoneKey d) d.zoneKey = some d
    exact alookup_ainsert_self _ _ _
  · intro pd hpd
    show alookup (amodify st.partitions d.partitionNumber
        (fun p => { p with zones := insert d.zoneKey p.zones })) d.partitionNumber
      = some { pd with zones := insert d.zoneKey pd.zones }
    rw [alookup_amodify_self, hpd]
    rfl
  · intro hnone
    show alookup (amodify st.partitions d.partitionNumber
        (fun p => { p with zones := insert d.zoneKey p.zones })) d.partitionNumber
      = none
    rw [alookup_amodify_self, hnone]
    rfl
  · intro g hg
    have : (handleZoneData st d).groups
        = amodify st.groups d.groupKey
            (fun g => { g with zones := insert d.zoneKey g.zones }) := by
      simp only [handleZoneData, hg]
    rw [this, alookup_amodify_self, hg]
    rfl
  · intro hnone
    have : (handleZoneData st d).groups
        = ainsert st.groups d.groupKey
            (Group.new d.partitionNumber d.groupNumber) := by
      simp only [handleZoneData, hnone]
    rw [this]
    exact alookup_ainsert_self _ _ _

/-- Witness for C6 (amended): from a store holding partition 1 (with an empty
zone set) and no groups, handling a ZoneData record for partition 1, group 2,
zone 3 stores the zone, adds `(1, 3)` to partition 1's zone set, and creates
the group `(1, 2)` with an empty zone set. -/
theorem c6_zone_data_amended_witness :
    alookup (handleZoneData (runStore [.partition ⟨1, 1, .off, ∅⟩])
        ⟨1, 1, 2, 3, .hardwired, .normal, ""⟩).zones (1, 3)
      = some ⟨1, 1, 2, 3, .hardwired, .normal, ""⟩
  ∧ alookup (handleZoneData (runStore [.partition ⟨1, 1, .off, ∅⟩])
        ⟨1, 1, 2, 3, .hardwired, .normal, ""⟩).partitions 1
      = some ⟨1, 1, .off, insert (1, 3) ∅⟩
  ∧ alookup (handleZoneData (runStore [.partition ⟨1, 1, .off, ∅⟩])
        ⟨1, 1, 2, 3, .hardwired, .normal, ""⟩).groups (1, 2)
      = some (Group.new 1 2) :=
  ⟨(c6_zone_data_amended _ _).1,
   (c6_zone_data_amended _ _).2.1 ⟨1, 1, .off, ∅⟩ (by decide),
   (c6_zone_data_amended _ _).2.2.2.2 (by decide)⟩

theorem keypressByte_lt (k : Keypress) : keypressByte k < 256 := by
  cases k <;> decide

theorem handleKeypress_bytes_lt (p : Nat) (keys : List Keypress) (hp : p < 256) :
    ∀ b ∈ handleKeypress p keys, b < 256 := by
  intro b hb
  simp only [handleKeypress, List.mem_cons, List.mem_map] at hb
  rcases hb with rfl | rfl | rfl | ⟨k, _, rfl⟩
  · omega
  · exact hp
  · omega
  · exact keypressByte_lt k

theorem encodeBody_bytes_lt (cmd : SendableMessage) (h : messageWf cmd) :
    ∀ b ∈ encodeBody cmd, b < 256 := by
  cases cmd with
  | ack => simp [encodeBody]
  | nak => simp [encodeBody]
  | list req => cases req <;> decide
  | arm options => exact handleKeypress_bytes_lt _ _ h
  | disarm options => exact handleKeypress_bytes_lt _ _ h
  | toggleChime partition => exact handleKeypress_bytes_lt _ _ h
  | keypress partition keys => exact handleKeypress_bytes_lt _ _ h
  | dynamicDataRefresh => decide

theorem frameBytes_bytes_lt (cmd : SendableMessage) (h : messageWf cmd) :
    ∀ b ∈ frameBytes cmd, b < 256 := by
  intro b hb
  simp only [frameBytes, List.mem_append, List.mem_cons] at hb
  rcases hb with (rfl | hb) | hb2
  · exact Nat.mod_lt _ (by omega)
  · exact encodeBody_bytes_lt cmd h b hb
  · rcases hb2 with rfl | h0
    · simp only [computeChecksum]
      exact Nat.mod_lt _ (by omega)
    · simp at h0

/-- Claim C8 as amended: every data frame (any command other than Ack/Nak,
with its `u8` fields in range) is a line feed followed by ASCII-hex pairs
that decode back to the frame bytes; the length byte is
`(1 + body size) mod 256` — equal to `1 + body size` whenever the body is at
most 254 bytes, the truncation the counterexample exhibits notwithstanding —
and the final checksum byte equals `(L + sum of body bytes) mod 256`. -/
theorem c8_frame_invariants (cmd : SendableMessage) (hwf : messageWf cmd)
    (hctrl : isCtrlMessage cmd = false) :
    encodeFrame cmd
      = 0x0A :: asciiHexRender
          ((((1 + (encodeBody cmd).length) % 256) :: encodeBody cmd)
            ++ [(((1 + (encodeBody cmd).length) % 256) + (encodeBody cmd).sum) % 256])
  ∧ asciiHexToBin ((encodeFrame cmd).drop 1)
      = .ok ((((1 + (encodeBody cmd).length) % 256) :: encodeBody cmd)
            ++ [(((1 + (encodeBody cmd).length) % 256) + (encodeBody cmd).sum) % 256])
  ∧ ((encodeBody cmd).length ≤ 254 →
      (1 + (encodeBody cmd).length) % 256 = 1 + (encodeBody cmd).length) := by
  have hfb : frameBytes cmd
      = (((1 + (encodeBody cmd).length) % 256) :: encodeBody cmd)
        ++ [(((1 + (encodeBody cmd).length) % 256) + (encodeBody cmd).sum) % 256] := by
    simp [frameBytes, computeChecksum]
  have henc : encodeFrame cmd = 0x0A :: asciiHexRender (frameBytes cmd) := by
    cases cmd
    case ack => exact absurd hctrl (by decide)
    case nak => exact absurd hctrl (by decide)
    all_goals rfl
  refine ⟨by rw [henc, hfb], ?_, ?_⟩
  · rw [henc]
    simp only [List.drop_succ_cons, List.drop_zero]
    rw [asciiHexToBin_asciiHexRender _ (frameBytes_bytes_lt cmd hwf), hfb]
  · intro hlen
    exact Nat.mod_eq_of_lt (by omega)

/-- Witness for C8 at the concrete command `List(AllData)`: the emitted frame
is the line feed followed by the hex pairs of `02 02 04` (length byte 2,
body `02`, checksum 4), which decode back to those bytes. -/
theorem c8_frame_invariants_witness :
    encodeFrame (.list .allData)
      = 0x0A :: asciiHexRender
          ((((1 + (encodeBody (.list .allData)).length) % 256)
              :: encodeBody (.list .allData))
            ++ [(((1 + (encodeBody (.list .allData)).length) % 256)
                  + (encodeBody (.list .allData)).sum) % 256])
  ∧ asciiHexToBin ((encodeFrame (.list .allData)).drop 1)
      = .ok ((((1 + (encodeBody (.list .allData)).length) % 256)
              :: encodeBody (.list .allData))
            ++ [(((1 + (encodeBody (.list .allData)).length) % 256)
                  + (encodeBody (.list .allData)).sum) % 256])
  ∧ ((encodeBody (.list .allData)).length ≤ 254 →
      (1 + (encodeBody (.list .allData)).length) % 256
        = 1 + (encodeBody (.list .allData)).length) :=
  c8_frame_invariants (.list .allData) (by trivial) rfl

/-- Claim C1 as amended: for every inbound data frame (line feed, ASCII-hex
length byte `L = |body| + 1`, hex body and hex checksum byte) whose checksum
byte differs from `(L + Σ body) mod 256`, the decoder consumes the frame and
emits no Record — and the link layer writes *nothing* in response (the
original claim's outbound NAK is never sent; no NAK logic exists on the
decode path). -/
theorem c1_checksum_drop_no_nak (body : List Nat) (ck : Nat)
    (hbody : ∀ b ∈ body, b < 256) (hck : ck < 256)
    (hlen : body.length + 1 < 256)
    (hbad : ck ≠ (body.length + 1 + body.sum) % 256) :
    decodeOnce (0x0A :: asciiHexRender ((body.length + 1) :: (body ++ [ck])))
      = .ok none []
  ∧ decodeStream
      (0x0A :: asciiHexRender ((body.length + 1) :: (body ++ [ck]))).length
      (0x0A :: asciiHexRender ((body.length + 1) :: (body ++ [ck])))
      = some ([], [])
  ∧ inboundWrites (0x0A :: asciiHexRender ((body.length + 1) :: (body ++ [ck])))
      = some [] := by
  set L := body.length + 1 with hLdef
  set payload := body ++ [ck] with hpayloaddef
  have hpaylen : payload.length = L := by
    simp [hpayloaddef, hLdef]
  have hpaybytes : ∀ b ∈ payload, b < 256 := by
    intro b hb
    rcases List.mem_append.1 hb with h | h
    · exact hbody b h
    · simp only [List.mem_singleton] at h
      omega
  set hex := asciiHexRender (L :: payload) with hhexdef
  have hhexbytes : ∀ c ∈ hex, 48 ≤ c ∧ c ≤ 70 := by
    refine mem_asciiHexRender _ ?_
    intro b hb
    rcases List.mem_cons.1 hb with rfl | h
    · omega
    · exact hpaybytes b h
  have hhexlen : hex.length = 2 * body.length + 4 := by
    rw [hhexdef, asciiHexRender_length]
    simp [hpaylen, hLdef]
    omega
  set src := (0x0A :: hex : List Nat) with hsrcdef
  have hsrclen : src.length = 2 * body.length + 5 := by
    rw [hsrcdef]
    simp [hhexlen]
  have hctrlpos : positionOf (fun b => b == ACK || b == NAK) src = none := by
    apply positionOf_eq_none
    intro x hx
    rw [hsrcdef] at hx
    rcases List.mem_cons.1 hx with rfl | hxh
    · decide
    · have := hhexbytes x hxh
      simp only [Bool.or_eq_false_iff, beq_eq_false_iff_ne, ne_eq, ACK, NAK]
      omega
  have hlfpos : positionOf (fun b => b == 0x0A) src = some 0 := by
    rw [hsrcdef]
    exact positionOf_cons_of_true _ (by decide)
  have hdrop1 : src.drop (0 + 1) = hex := by
    rw [hsrcdef]
    simp
  have htake2 : hex.take ASCII_BYTE_REAL_LEN
      = [hexCharCode (L / 16), hexCharCode (L % 16)] := by
    rw [hhexdef]
    show (asciiHexRender (L :: payload)).take 2 = _
    simp [asciiHexRender]
  have hu8 : asciiHexToU8 ((src.drop (0 + 1)).take ASCII_BYTE_REAL_LEN)
      = some L := by
    rw [hdrop1, htake2]
    exact asciiHexToU8_render_pair L (by omega)
  have hfull : (src.drop (0 + 1)).take
      (ASCII_BYTE_REAL_LEN + L * ASCII_BYTE_REAL_LEN) = hex := by
    rw [hdrop1]
    apply List.take_of_length_le
    simp only [ASCII_BYTE_REAL_LEN]
    omega
  have hdrop2 : hex.drop ASCII_BYTE_REAL_LEN = asciiHexRender payload := by
    rw [hhexdef]
    show (asciiHexRender (L :: payload)).drop 2 = _
    simp [asciiHexRender]
  have hbin : asciiHexToBin (hex.drop ASCII_BYTE_REAL_LEN) = .ok payload := by
    rw [hdrop2]
    exact asciiHexToBin_asciiHexRender payload hpaybytes
  have hlast : payload.getLast? = some ck := by
    rw [hpayloaddef]
    exact List.getLast?_concat _
  have hdroplast : payload.dropLast = body := by
    rw [hpayloaddef]
    exact List.dropLast_concat
  have hval : validateChecksum L body ck = false := by
    simp only [validateChecksum, computeChecksum, List.sum_cons]
    exact beq_eq_false_iff_ne.mpr (by rw [hLdef] at hbad ⊢; exact hbad)
  have hnewsrc : (src.drop (0 + 1)).drop
      (ASCII_BYTE_REAL_LEN + L * ASCII_BYTE_REAL_LEN) = [] := by
    rw [hdrop1]
    apply List.drop_eq_nil_of_le
    simp only [ASCII_BYTE_REAL_LEN]
    omega
  have hmain : decodeOnce src = .ok none [] := by
    unfold decodeOnce
    rw [if_neg (by rw [hsrcdef]; simp), hctrlpos, hlfpos]
    show decodeLfBranch src 0 = .ok none []
    unfold decodeLfBranch
    rw [if_neg (by simp only [ASCII_BYTE_REAL_LEN]; omega)]
    split
    next h => rw [hu8] at h; simp at h
    next dataLen h =>
      rw [hu8] at h
      injection h with h
      subst h
      rw [if_neg (by simp only [ASCII_BYTE_REAL_LEN]; omega)]
      dsimp only
      split
      next e =>
        rw [hfull, hbin] at e
        simp at e
      next decoded e =>
        rw [hfull, hbin] at e
        injection e with e
        subst e
        split
        next g => rw [hlast] at g; simp at g
        next checksum g =>
          rw [hlast] at g
          injection g with g
          subst g
          rw [hdroplast, hval]
          simp only [Bool.false_eq_true, if_false]
          rw [hnewsrc]
  refine ⟨hmain, ?_, ?_⟩
  · have hsucc : src.length = (2 * body.length + 4) + 1 := by omega
    rw [hsucc]
    simp [decodeStream, hmain]
  · have hsucc : src.length = (2 * body.length + 4) + 1 := by omega
    rw [inboundWrites, hsucc]
    simp [decodeStream, hmain]

/-- Witness for C1 (amended) at the tampered frame with body `0x02` and
checksum byte 5 (the valid checksum is 4): the decoder consumes it, emits
nothing, and the link layer writes nothing. -/
theorem c1_checksum_drop_no_nak_witness :
    decodeOnce (0x0A :: asciiHexRender (([0x02].length + 1) :: ([0x02] ++ [5])))
      = .ok none []
  ∧ decodeStream
      (0x0A :: asciiHexRender (([0x02].length + 1) :: ([0x02] ++ [5]))).length
      (0x0A :: asciiHexRender (([0x02].length + 1) :: ([0x02] ++ [5])))
      = some ([], [])
  ∧ inboundWrites (0x0A :: asciiHexRender (([0x02].length + 1) :: ([0x02] ++ [5])))
      = some [] :=
  c1_checksum_drop_no_nak [0x02] 5 (by decide) (by decide) (by decide) (by decide)

/-- The zones map binds every key to a zone whose derived identifier is that
key (it is only ever written at `data.id()`). -/
def zonesKeyed (zones : List ((Nat × Nat) × ZoneData)) : Prop :=
  ∀ kv ∈ zones, kv.2.zoneKey = kv.1

theorem mem_zoneKeysFor (zones : List ((Nat × Nat) × ZoneData)) (p : Nat)
    (x : Nat × Nat) :
    x ∈ zoneKeysFor zones p ↔
      ∃ kv, kv ∈ zones ∧ kv.2.partitionNumber = p ∧ kv.2.zoneKey = x := by
  simp only [zoneKeysFor, List.mem_toFinset, List.mem_map, List.mem_filter,
    decide_eq_true_eq]
  constructor
  · rintro ⟨kv, ⟨hm, hp⟩, hx⟩
    exact ⟨kv, hm, hp, hx⟩
  · rintro ⟨kv, hm, hp, hx⟩
    exact ⟨kv, ⟨hm, hp⟩, hx⟩

theorem zoneKeysFor_ainsert (zones : List ((Nat × Nat) × ZoneData))
    (d : ZoneData) (p : Nat) (hwf : zonesKeyed zones) :
    zoneKeysFor (ainsert zones d.zoneKey d) p
      = if d.partitionNumber = p then insert d.zoneKey (zoneKeysFor zones p)
        else zoneKeysFor zones p := by
  apply Finset.ext
  intro x
  rw [mem_zoneKeysFor]
  by_cases hdp : d.partitionNumber = p
  · rw [if_pos hdp, Finset.mem_insert, mem_zoneKeysFor]
    constructor
    · rintro ⟨kv, hm, hp, hx⟩
      rcases List.mem_cons.1 hm with rfl | hmf
      · exact Or.inl hx.symm
      · exact Or.inr ⟨kv, List.mem_of_mem_filter hmf, hp, hx⟩
    · rintro (rfl | ⟨kv, hm, hp, hx⟩)
      · exact ⟨(d.zoneKey, d), List.mem_cons_self _ _, hdp, rfl⟩
      · by_cases hk : kv.1 = d.zoneKey
        · have h1 : kv.2.zoneKey = d.zoneKey := (hwf kv hm).trans hk
          exact ⟨(d.zoneKey, d), List.mem_cons_self _ _, hdp, h1.symm.trans hx⟩
        · exact ⟨kv,
            List.mem_cons.2 (Or.inr (List.mem_filter.2 ⟨hm, by simp [hk]⟩)),
            hp, hx⟩
  · rw [if_neg hdp, mem_zoneKeysFor]
    constructor
    · rintro ⟨kv, hm, hp, hx⟩
      rcases List.mem_cons.1 hm with rfl | hmf
      · exact absurd hp hdp
      · exact ⟨kv, List.mem_of_mem_filter hmf, hp, hx⟩
    · rintro ⟨kv, hm, hp, hx⟩
      by_cases hk : kv.1 = d.zoneKey
      · exfalso
        have h1 : kv.2.zoneKey = d.zoneKey := (hwf kv hm).trans hk
        have h2 : kv.2.partitionNumber = d.partitionNumber :=
          congrArg Prod.fst h1
        exact hdp (h2.symm.trans hp)
      · refine ⟨kv, ?_, hp, hx⟩
        exact List.mem_cons.2 (Or.inr (List.mem_filter.2 ⟨hm, by simp [hk]⟩))

theorem zoneKeysFor_amodify (zones : List ((Nat × Nat) × ZoneData))
    (k : Nat × Nat) (f : ZoneData → ZoneData)
    (hf : ∀ z, (f z).partitionNumber = z.partitionNumber ∧ (f z).zoneKey = z.zoneKey)
    (p : Nat) : zoneKeysFor (amodify zones k f) p = zoneKeysFor zones p := by
  apply Finset.ext
  intro x
  rw [mem_zoneKeysFor, mem_zoneKeysFor]
  constructor
  · rintro ⟨kv, hm, hp, hx⟩
    obtain ⟨a, ha, heq⟩ := List.mem_map.1 hm
    by_cases hk : a.1 = k
    · rw [if_pos hk] at heq
      subst heq
      exact ⟨a, ha, ((hf a.2).1).symm.trans hp, ((hf a.2).2).symm.trans hx⟩
    · rw [if_neg hk] at heq
      subst heq
      exact ⟨a, ha, hp, hx⟩
  · rintro ⟨kv, hm, hp, hx⟩
    by_cases hk : kv.1 = k
    · refine ⟨(k, f kv.2), ?_, (hf kv.2).1.trans hp, (hf kv.2).2.trans hx⟩
      have h2 : (if kv.1 = k then (k, f kv.2) else kv) ∈ amodify zones k f :=
        List.mem_map_of_mem (fun kv => if kv.1 = k then (k, f kv.2) else kv) hm
      rw [if_pos hk] at h2
      exact h2
    · refine ⟨kv, ?_, hp, hx⟩
      have h2 : (if kv.1 = k then (k, f kv.2) else kv) ∈ amodify zones k f :=
        List.mem_map_of_mem (fun kv => if kv.1 = k then (k, f kv.2) else kv) hm
      rw [if_neg hk] at h2
      exact h2

theorem zonesKeyed_ainsert (zones : List ((Nat × Nat) × ZoneData))
    (d : ZoneData) (hwf : zonesKeyed zones) :
    zonesKeyed (ainsert zones d.zoneKey d) := by
  intro kv hm
  rcases List.mem_cons.1 hm with rfl | hmf
  · rfl
  · exact hwf kv (List.mem_of_mem_filter hmf)

theorem zonesKeyed_amodify (zones : List ((Nat × Nat) × ZoneData))
    (k : Nat × Nat) (f : ZoneData → ZoneData)
    (hf : ∀ z, (f z).zoneKey = z.zoneKey) (hwf : zonesKeyed zones) :
    zonesKeyed (amodify zones k f) := by
  intro kv hm
  obtain ⟨a, ha, heq⟩ := List.mem_map.1 hm
  by_cases hk : a.1 = k
  · rw [if_pos hk] at heq
    subst heq
    exact (hf a.2).trans ((hwf a ha).trans hk)
  · rw [if_neg hk] at heq
    subst heq
    exact hwf a ha

/-- The invariant of claim C9 with the bookkeeping fact that makes it
inductive: zones are keyed by their identifiers, and each stored partition's
zone set equals the identifiers of the stored zones of that partition. -/
def storeInv (st : ConcordState) : Prop :=
  zonesKeyed st.zones ∧
  ∀ p pd, alookup st.partitions p = some pd → pd.zones = zoneKeysFor st.zones p

theorem storeInv_handleZoneData (st : ConcordState) (d : ZoneData)
    (h : storeInv st) : storeInv (handleZoneData st d) := by
  obtain ⟨hwf, hinv⟩ := h
  constructor
  · exact zonesKeyed_ainsert st.zones d hwf
  · intro p pd hlook
    have hz := zoneKeysFor_ainsert st.zones d p hwf
    show pd.zones = zoneKeysFor (ainsert st.zones d.zoneKey d) p
    have hlook2 : alookup (amodify st.partitions d.partitionNumber
        (fun q => { q with zones := insert d.zoneKey q.zones })) p = some pd :=
      hlook
    by_cases hdp : d.partitionNumber = p
    · subst hdp
      rw [alookup_amodify_self] at hlook2
      cases hold : alookup st.partitions d.partitionNumber with
      | none => rw [hold] at hlook2; simp at hlook2
      | some pd0 =>
        rw [hold] at hlook2
        simp only [Option.map_some'] at hlook2
        injection hlook2 with hlook3
        rw [hz, if_pos rfl, ← hlook3, ← hinv _ _ hold]
    · rw [alookup_amodify_ne _ _ _ _ (fun hh => hdp hh.symm)] at hlook2
      rw [hz, if_neg hdp]
      exact hinv p pd hlook2

theorem storeInv_handleZoneStatus (st : ConcordState) (d : ZoneStatusData)
    (h : storeInv st) : storeInv (handleZoneStatus st d) := by
  obtain ⟨hwf, hinv⟩ := h
  have hf : ∀ z : ZoneData,
      ({ z with zoneStatus := d.zoneStatus } : ZoneData).partitionNumber
          = z.partitionNumber
        ∧ ({ z with zoneStatus := d.zoneStatus } : ZoneData).zoneKey
          = z.zoneKey := fun z => ⟨rfl, rfl⟩
  constructor
  · exact zonesKeyed_amodify st.zones d.zoneKey _ (fun z => (hf z).2) hwf
  · intro p pd hlook
    show pd.zones = zoneKeysFor (amodify st.zones d.zoneKey
      (fun z => { z with zoneStatus := d.zoneStatus })) p
    rw [zoneKeysFor_amodify _ _ _ hf]
    exact hinv p pd hlook

theorem storeInv_handlePartitionData (st : ConcordState) (d : PartitionData)
    (h : storeInv st) : storeInv (handlePartitionData st d) := by
  obtain ⟨hwf, hinv⟩ := h
  refine ⟨hwf, ?_⟩
  intro p pd hlook
  have hlook2 : alookup (ainsert st.partitions d.partitionNumber
      { d with zones := zoneKeysFor st.zones d.partitionNumber }) p = some pd :=
    hlook
  by_cases hp : p = d.partitionNumber
  · subst hp
    rw [alookup_ainsert_self] at hlook2
    injection hlook2 with hlook3
    rw [← hlook3]
    rfl
  · rw [alookup_ainsert_ne _ _ _ _ hp] at hlook2
    exact hinv p pd hlook2

theorem storeInv_handleStoreRecord (st : ConcordState) (r : StoreRecord)
    (h : storeInv st) : storeInv (handleStoreRecord st r) := by
  cases r with
  | zone d => exact storeInv_handleZoneData st d h
  | zoneStatus d => exact storeInv_handleZoneStatus st d h
  | partition d => exact storeInv_handlePartitionData st d h

theorem storeInv_foldl (records : List StoreRecord) :
    ∀ st : ConcordState, storeInv st →
      storeInv (records.foldl handleStoreRecord st) := by
  induction records with
  | nil => intro st h; exact h
  | cons r rest ih =>
    intro st h
    rw [List.foldl_cons]
    exact ih _ (storeInv_handleStoreRecord st r h)

/-- Claim C9: from the empty store, after any finite sequence of ZoneData,
ZoneStatus and PartitionData records, every partition present in the
partitions map has a zone set equal to the identifiers of exactly the stored
zones whose partition number matches. -/
theorem c9_partition_zone_sets (records : List StoreRecord) (p : Nat)
    (pd : PartitionData)
    (hlook : alookup (runStore records).partitions p = some pd) :
    pd.zones = zoneKeysFor (runStore records).zones p :=
  (storeInv_foldl records emptyState
    ⟨fun _ hm => absurd hm (List.not_mem_nil _), fun _ _ hl => by
      simp [alookup, emptyState] at hl⟩).2 p pd hlook

/-- Witness for C9: after a PartitionData record for partition 1 followed by a
ZoneData record for zone 3 of partition 1, partition 1's zone set is exactly
`{(1, 3)}`, the key set of the stored zones of partition 1. -/
theorem c9_partition_zone_sets_witness :
    alookup (runStore [.partition ⟨1, 1, .off, ∅⟩,
        .zone ⟨1, 1, 2, 3, .hardwired, .normal, ""⟩]).partitions 1
      = some ⟨1, 1, .off, insert (1, 3) ∅⟩
  ∧ (⟨1, 1, .off, insert (1, 3) ∅⟩ : PartitionData).zones
      = zoneKeysFor (runStore [.partition ⟨1, 1, .off, ∅⟩,
          .zone ⟨1, 1, 2, 3, .hardwired, .normal, ""⟩]).zones 1 :=
  ⟨by decide,
   c9_partition_zone_sets [.partition ⟨1, 1, .off, ∅⟩,
     .zone ⟨1, 1, 2, 3, .hardwired, .normal, ""⟩] 1 _ (by decide)⟩

end Concord4
